import Mathlib

/-!
Shallow embedding of the transactional document engine of the ComApp mock ERP
backend: the Purchase Order module (`app/apis/api_purchase_orders_module.py`)
and the Goods Receipt Note module (`app/apis/api_grn_module.py`), together
with the Pydantic request models they consume
(`app/models/models_purchase_orders_module.py`,
`app/models/models_grn_module.py`) and the shared in-memory database wired up
by `app/main_api.py`.

Modelling conventions:
- The shared mutable dictionary `db` is a `DB` record; each Python dict
  becomes a function `Key → Option Value` (lookup = application, `dict[k]=v`
  and `del` become pointwise updates).  Every endpoint is a function from the
  current database and the parsed request to a pair of an `Except`-style
  outcome and the database after the call; mutations performed before a
  `raise HTTPException` are visible in the returned database, exactly as for
  the in-place dictionary mutation in the source.
- Monetary and quantity values (Python floats) are modelled as rationals;
  `round(x, 2)` is modelled by `round2`, round-half-to-even at two decimal
  places, which is Python 3 `round` semantics on the numeric value.
- `datetime.utcnow()` / `date.today()` only feed the `YYMM` component of
  generated identifiers and the `createdAt`/`updatedAt` timestamps.  The
  year-month string is passed to each operation as an explicit `ym`
  argument; timestamp fields, which no claim mentions, are omitted from the
  record types.
- Optional request fields use `Option`; `none` models a field that is absent
  from the request body (for `exclude_unset=True` dumps) as well as an
  explicit JSON `null` (the two are not distinguished; no claim depends on
  an explicitly transmitted `null`).
- The products dictionary holds the product data that the PO module reads
  with `product.get(...)` (dict-shaped, as in the module's own fixture) and
  the GRN module reads by attribute; both are modelled by one `Product`
  record.
- FastAPI/Pydantic request validation (`Field(..., gt=0)`, `min_length=1`)
  runs before an endpoint body; it is modelled by explicit `...RequestValid`
  predicates and, where a claim needs it, a guard returning status 422.
-/

/-! ### Rational literals with kernel-reducible representation -/

/-- Builds the rational `n / d` directly from its reduced representation, so
that the kernel can evaluate field projections without running `Nat.gcd`
normalisation.  Used only to write concrete decimal fixtures. -/
def qlit (n : ℤ) (d : ℕ) (hd : d ≠ 0) (hc : n.natAbs.Coprime d) : ℚ :=
  ⟨n, d, hd, hc⟩

theorem qlit_eq (n : ℤ) (d : ℕ) (hd : d ≠ 0) (hc : n.natAbs.Coprime d) :
    qlit n d hd hc = (n : ℚ) / (d : ℚ) := by
  rw [qlit, Rat.mk'_eq_divInt, Rat.divInt_eq_div]
  norm_cast

/-! ### Decimal rendering of sequence numbers (Python `f"{n:03d}"` / `f"{n:04d}"`) -/

/-- One decimal digit as a character. -/
def digitChar : Nat → Char
  | 0 => '0' | 1 => '1' | 2 => '2' | 3 => '3' | 4 => '4'
  | 5 => '5' | 6 => '6' | 7 => '7' | 8 => '8' | 9 => '9'
  | _ => '*'

/-- Little-endian decimal digits of `n`, with explicit fuel so that the
recursion is structural and kernel-evaluable. -/
def digitsRevAux : Nat → Nat → List Nat
  | 0, _ => []
  | _ + 1, 0 => []
  | fuel + 1, n + 1 => ((n + 1) % 10) :: digitsRevAux fuel ((n + 1) / 10)

/-- Most-significant-first decimal character rendering of `n` (the digits of
`str(n)` in Python). -/
def decRepr (n : Nat) : List Char :=
  match n with
  | 0 => ['0']
  | _ => ((digitsRevAux n n).map digitChar).reverse

/-- Pads a character list on the left with zeros up to width `w`. -/
def padLeft (w : Nat) (cs : List Char) : List Char :=
  List.replicate (w - cs.length) '0' ++ cs

/-- The Python format expression `f"{n:0wd}"` for a natural number. -/
def fmtNat (w n : Nat) : String :=
  ⟨padLeft w (decRepr n)⟩

/-- Reads a decimal digit string back into a number (used only to prove that
`fmtNat` is injective). -/
def parseDec (cs : List Char) : Nat :=
  cs.foldl (fun a c => 10 * a + (c.toNat - 48)) 0

/-- Value of a little-endian digit list. -/
def valRev (l : List Nat) : Nat :=
  l.foldr (fun d a => d + 10 * a) 0

theorem valRev_digitsRevAux (fuel : Nat) :
    ∀ n : Nat, n ≤ fuel → valRev (digitsRevAux fuel n) = n := by
  induction fuel with
  | zero =>
    intro n hn
    interval_cases n
    simp [digitsRevAux, valRev]
  | succ f ih =>
    intro n hn
    match n with
    | 0 => simp [digitsRevAux, valRev]
    | m + 1 =>
      have hdiv : (m + 1) / 10 ≤ f := by
        have h1 : (m + 1) / 10 < m + 1 := Nat.div_lt_self (Nat.succ_pos m) (by omega)
        omega
      have := ih ((m + 1) / 10) hdiv
      simp only [digitsRevAux, valRev, List.foldr] at this ⊢
      omega

theorem digitsRevAux_lt (fuel : Nat) :
    ∀ n d : Nat, d ∈ digitsRevAux fuel n → d < 10 := by
  induction fuel with
  | zero => intro n d hd; simp [digitsRevAux] at hd
  | succ f ih =>
    intro n d hd
    match n with
    | 0 => simp [digitsRevAux] at hd
    | m + 1 =>
      simp only [digitsRevAux, List.mem_cons] at hd
      rcases hd with h | h
      · omega
      · exact ih _ _ h

theorem digitChar_toNat (d : Nat) (hd : d < 10) : (digitChar d).toNat - 48 = d := by
  interval_cases d <;> decide

theorem parseDec_map_reverse (l : List Nat) (hl : ∀ d ∈ l, d < 10) :
    parseDec ((l.map digitChar).reverse) = valRev l := by
  induction l with
  | nil => simp [parseDec, valRev]
  | cons d t ih =>
    have hd : d < 10 := hl d (List.mem_cons_self d t)
    have ht : ∀ x ∈ t, x < 10 := fun x hx => hl x (List.mem_cons_of_mem d hx)
    simp only [List.map_cons, List.reverse_cons, valRev, List.foldr]
    rw [parseDec, List.foldl_append]
    have hbase : List.foldl (fun a c => 10 * a + (c.toNat - 48)) 0 ((t.map digitChar).reverse)
        = valRev t := ih ht
    rw [show List.foldl (fun a c => 10 * a + (c.toNat - 48)) 0 ((t.map digitChar).reverse)
        = parseDec ((t.map digitChar).reverse) from rfl, ih ht]
    simp [List.foldl, digitChar_toNat d hd, valRev]
    omega

theorem parseDec_replicate_append (k : Nat) (cs : List Char) :
    parseDec (List.replicate k '0' ++ cs)
      = List.foldl (fun a c => 10 * a + (c.toNat - 48)) 0 cs := by
  rw [parseDec, List.foldl_append]
  have : List.foldl (fun a c => 10 * a + (c.toNat - 48)) 0 (List.replicate k '0') = 0 := by
    induction k with
    | zero => simp
    | succ m ih => simpa [List.replicate_succ] using ih
  rw [this]

theorem parseDec_padLeft (w n : Nat) : parseDec (padLeft w (decRepr n)) = n := by
  rw [padLeft, parseDec_replicate_append]
  match n with
  | 0 => simp [decRepr, parseDec]
  | m + 1 =>
    have h1 : parseDec (((digitsRevAux (m + 1) (m + 1)).map digitChar).reverse)
        = valRev (digitsRevAux (m + 1) (m + 1)) :=
      parseDec_map_reverse _ (digitsRevAux_lt (m + 1) (m + 1))
    have h2 : valRev (digitsRevAux (m + 1) (m + 1)) = m + 1 :=
      valRev_digitsRevAux (m + 1) (m + 1) (le_refl _)
    rw [parseDec] at h1
    rw [show decRepr (m + 1) = ((digitsRevAux (m + 1) (m + 1)).map digitChar).reverse from rfl]
    rw [h1, h2]

theorem fmtNat_injective (w a b : Nat) (h : fmtNat w a = fmtNat w b) : a = b := by
  have hdata : padLeft w (decRepr a) = padLeft w (decRepr b) := congrArg String.data h
  have := congrArg parseDec hdata
  rwa [parseDec_padLeft, parseDec_padLeft] at this

/-! ### Rounding (`round(x, 2)` in Python 3: half-to-even at two decimals) -/

/-- Python `round(x, 2)` on the numeric value of `x`: the multiple of `1/100`
nearest to `x`, ties resolved toward the even multiple. -/
def round2 (q : ℚ) : ℚ :=
  let f : ℤ := ⌊q * 100⌋
  let r : ℚ := q * 100 - (f : ℚ)
  if r < 1 / 2 then (f : ℚ) / 100
  else if 1 / 2 < r then ((f + 1 : ℤ) : ℚ) / 100
  else if f % 2 = 0 then (f : ℚ) / 100 else ((f + 1 : ℤ) : ℚ) / 100

theorem round2_down (q : ℚ) (z : ℤ) (h₁ : (z : ℚ) ≤ q * 100) (h₂ : q * 100 < (z : ℚ) + 1 / 2) :
    round2 q = (z : ℚ) / 100 := by
  have hf : ⌊q * 100⌋ = z := by
    apply Int.floor_eq_iff.mpr
    constructor
    · exact h₁
    · have : ((z : ℚ) + 1 / 2) ≤ (z : ℚ) + 1 := by norm_num
      linarith
  rw [round2]
  simp only [hf]
  have : q * 100 - (z : ℚ) < 1 / 2 := by linarith
  rw [if_pos this]

theorem round2_up (q : ℚ) (z : ℤ) (h₁ : (z : ℚ) + 1 / 2 < q * 100) (h₂ : q * 100 < (z : ℚ) + 1) :
    round2 q = ((z + 1 : ℤ) : ℚ) / 100 := by
  have hf : ⌊q * 100⌋ = z := by
    apply Int.floor_eq_iff.mpr
    constructor
    · have : (0 : ℚ) ≤ 1 / 2 := by norm_num
      linarith
    · exact h₂
  rw [round2]
  simp only [hf]
  have hr1 : ¬ (q * 100 - (z : ℚ) < 1 / 2) := by push_neg; linarith
  have hr2 : 1 / 2 < q * 100 - (z : ℚ) := by linarith
  rw [if_neg hr1, if_pos hr2]

/-! ### Python-truthiness and dictionary helpers -/

/-- Python `str.upper()` over the character list (ASCII data in this
repository). -/
def pyUpper (s : String) : String := ⟨s.data.map Char.toUpper⟩

/-- Truthiness of an optional string (`None` and the empty string are falsy). -/
def pyTruthyStr : Option String → Bool
  | none => false
  | some s => s != ""

/-- Pointwise insertion, modelling `dict[k] = v`. -/
def setMap {K V : Type} [DecidableEq K] (m : K → Option V) (k : K) (v : V) : K → Option V :=
  fun k' => if k' = k then some v else m k'

/-- Pointwise removal, modelling `del dict[k]` (on an absent key it is the
identity; the source only deletes keys it has just checked for presence). -/
def delMap {K V : Type} [DecidableEq K] (m : K → Option V) (k : K) : K → Option V :=
  fun k' => if k' = k then none else m k'

/-- Insertion into the two-level GRN sequence dictionary
`db["next_grn_header_id_counter"][store_id][year_month]`. -/
def setMap2 (m : String → String → Option Nat) (a b : String) (v : Nat) :
    String → String → Option Nat :=
  fun a' b' => if a' = a ∧ b' = b then some v else m a' b'

/-- Applies an `exclude_unset` update of one optional field: a field present
in the request body replaces the stored value, an absent field keeps it. -/
def applyOpt {α : Type} (newVal : Option α) (old : Option α) : Option α :=
  match newVal with
  | some v => some v
  | none => old

/-! ### Master data (`models_product_module`, `models_supplier_module`, `api_stores_module`) -/

/-- Product master data, restricted to the fields the document engine reads. -/
structure Product where
  productID : Nat
  productName : String
  unitOfMeasure : Option String
  requiresExpiryDate : Bool
  requiresBatchNumber : Bool
deriving DecidableEq

/-- Supplier master data (only existence is consulted by the document engine). -/
structure Supplier where
  supplierID : Nat
  supplierName : String
deriving DecidableEq

/-- Store master data (only existence is consulted by the document engine). -/
structure Store where
  storeID : String
  storeName : String
deriving DecidableEq

/-! ### Purchase Order models (`models_purchase_orders_module.py`) -/

/-- The `PurchaseOrderStatusLiteral` values. -/
inductive POStatus where
  | Draft | PendingApproval | Approved | SentToSupplier
  | PartiallyReceived | FullyReceived | Cancelled | Closed
deriving DecidableEq

/-- Model of `PurchaseOrderLineCreate`: one line of a PO creation/update request.
Date-valued fields (`expectedLineDeliveryDate`) are omitted: no claim
concerns them. -/
structure PurchaseOrderLineCreate where
  productID : Nat
  quantityOrdered : ℚ
  unitPrice : ℚ
  description : Option String
  unitOfMeasure : Option String
  purchaseRequisitionLineID : Option Nat
deriving DecidableEq

/-- Model of `PurchaseOrderLine`: a stored PO line. -/
structure PurchaseOrderLine where
  purchaseOrderLineID : Nat
  purchaseOrderID : String
  productID : Nat
  description : Option String
  quantityOrdered : ℚ
  unitOfMeasure : Option String
  unitPrice : ℚ
  lineTotal : ℚ
  quantityReceived : ℚ
  notes : Option String
  purchaseRequisitionLineID : Option Nat
deriving DecidableEq

/-- Model of `PurchaseOrderHeaderCreate`: the request body for `POST` and `PUT`
purchase orders.  `none` in an optional field models a field absent from the
request body. -/
structure PurchaseOrderHeaderCreate where
  supplierID : Nat
  storeID : String
  status : Option POStatus
  notes : Option String
  paymentTermsID : Option Nat
  shippingAddress : Option String
  billingAddress : Option String
  purchaseRequisitionID : Option String
  lines : List PurchaseOrderLineCreate
  taxAmount : Option ℚ
  shippingCost : Option ℚ
  otherCharges : Option ℚ
deriving DecidableEq

/-- Model of `PurchaseOrderHeader`: a stored PO header with embedded lines. -/
structure PurchaseOrderHeader where
  purchaseOrderID : String
  supplierID : Nat
  storeID : String
  status : POStatus
  notes : Option String
  paymentTermsID : Option Nat
  shippingAddress : Option String
  billingAddress : Option String
  purchaseRequisitionID : Option String
  subtotal : ℚ
  taxAmount : ℚ
  shippingCost : ℚ
  otherCharges : ℚ
  totalAmount : ℚ
  lines : List PurchaseOrderLine
deriving DecidableEq

/-- Pydantic validation of `PurchaseOrderHeaderCreate`:
`lines: List[...] = Field(..., min_length=1)`, `quantityOrdered: gt=0`,
`unitPrice: ge=0`, and the `ge=0` bounds on the optional charge fields. -/
def POHeaderCreateRequestValid (pin : PurchaseOrderHeaderCreate) : Prop :=
  pin.lines ≠ [] ∧
  (∀ l ∈ pin.lines, 0 < l.quantityOrdered ∧ 0 ≤ l.unitPrice) ∧
  0 ≤ pin.taxAmount.getD 0 ∧ 0 ≤ pin.shippingCost.getD 0 ∧ 0 ≤ pin.otherCharges.getD 0

instance (pin : PurchaseOrderHeaderCreate) : Decidable (POHeaderCreateRequestValid pin) := by
  unfold POHeaderCreateRequestValid
  infer_instance

/-! ### GRN models (`models_grn_module.py`) -/

/-- Model of `GoodsReceiptNoteLineCreate`.  `expiryDate` is an opaque date stamp
(`date` objects are always truthy, so only its presence matters). -/
structure GoodsReceiptNoteLineCreate where
  productID : Nat
  purchaseOrderLineID : Option Nat
  quantityOrdered : Option ℚ
  quantityReceived : ℚ
  unitPriceAtReceipt : Option ℚ
  batchNumber : Option String
  expiryDate : Option Nat
  notes : Option String
deriving DecidableEq

/-- Model of `GoodsReceiptNoteLine`: a stored GRN line. -/
structure GoodsReceiptNoteLine where
  grnLineID : Nat
  grnHeaderID : String
  productID : Nat
  purchaseOrderLineID : Option Nat
  quantityOrdered : Option ℚ
  quantityReceived : ℚ
  unitPriceAtReceipt : Option ℚ
  batchNumber : Option String
  expiryDate : Option Nat
  notes : Option String
deriving DecidableEq

/-- Model of `GoodsReceiptNoteHeaderCreate`: the request body for GRN `POST`/`PUT`.
Note: unlike `PurchaseOrderHeaderCreate`, `lines` carries no `min_length`
constraint in the source. -/
structure GoodsReceiptNoteHeaderCreate where
  purchaseOrderID : Option String
  supplierID : Option Nat
  storeID : String
  supplierInvoiceNo : Option String
  receivedByUserID : Option Nat
  status : Option String
  notes : Option String
  lines : List GoodsReceiptNoteLineCreate
deriving DecidableEq

/-- Model of `GoodsReceiptNoteHeader`: a stored GRN header with embedded lines. -/
structure GoodsReceiptNoteHeader where
  grnID : String
  purchaseOrderID : Option String
  supplierID : Option Nat
  storeID : String
  supplierInvoiceNo : Option String
  receivedByUserID : Option Nat
  status : String
  notes : Option String
  lines : List GoodsReceiptNoteLine
deriving DecidableEq

/-- Pydantic validation of `GoodsReceiptNoteHeaderCreate`:
`quantityReceived: gt=0` and the `ge=0` bounds; there is no non-emptiness
constraint on `lines`. -/
def GRNHeaderCreateRequestValid (gin : GoodsReceiptNoteHeaderCreate) : Prop :=
  ∀ l ∈ gin.lines, 0 < l.quantityReceived ∧
    (∀ q ∈ l.quantityOrdered.toList, 0 ≤ q) ∧
    (∀ p ∈ l.unitPriceAtReceipt.toList, 0 ≤ p)

instance (gin : GoodsReceiptNoteHeaderCreate) : Decidable (GRNHeaderCreateRequestValid gin) := by
  unfold GRNHeaderCreateRequestValid
  infer_instance

/-! ### The shared in-memory database (`shared_mock_db` in `main_api.py`) -/

/-- Error outcome of an endpoint (`raise HTTPException(status_code=...)`);
detail strings are not modelled. -/
structure HTTPException where
  status_code : Nat
deriving DecidableEq

/-- The portion of `shared_mock_db` touched by the PO and GRN modules.
`next_po_line_id` is `Option`-valued because the PO module creates that key
on demand (`if next_line_id_counter_key not in db`); `next_grn_line_id` is
initialised to `1` in the GRN module's dictionary literal and threaded into
`shared_mock_db` by `main_api.py`. -/
structure DB where
  suppliers : Nat → Option Supplier
  stores : String → Option Store
  products : Nat → Option Product
  po_sequences : String → Option Nat
  next_po_line_id : Option Nat
  purchase_order_headers : String → Option PurchaseOrderHeader
  purchase_order_lines : Nat → Option PurchaseOrderLine
  goods_receipt_note_headers : String → Option GoodsReceiptNoteHeader
  goods_receipt_note_lines : Nat → Option GoodsReceiptNoteLine
  next_grn_header_id_counter : String → String → Option Nat
  next_grn_line_id : Nat

/-! ### Purchase Order endpoints (`api_purchase_orders_module.py`) -/

/-- Model of `generate_mock_po_id`: reads and bumps the per-(store, month) sequence in
`db["po_sequences"]` and formats `PO-[STORE]-[YYMM][SEQ:03d]`. -/
def generate_mock_po_id (ym : String) (store_id : String) (db : DB) : String × DB :=
  let sequence_key := "PO_" ++ store_id ++ "_" ++ ym
  let current_seq := (db.po_sequences sequence_key).getD 0 + 1
  ("PO-" ++ pyUpper store_id ++ "-" ++ ym ++ fmtNat 3 current_seq,
   { db with po_sequences := setMap db.po_sequences sequence_key current_seq })

/-- The line-processing loop of `create_purchase_order_endpoint`: validates
each product, allocates a line id from `db["next_po_line_id"]`, accumulates
the processed lines and the running unrounded subtotal.  Lines are not yet
written to `db["purchase_order_lines"]` (the `POST` handler does that only
after the loop).  A missing product aborts with 404, leaving the already
performed counter increments in place. -/
def create_po_lines (poid : String) :
    DB → List PurchaseOrderLineCreate → List PurchaseOrderLine → ℚ →
    Except HTTPException (List PurchaseOrderLine × ℚ) × DB
  | db, [], acc, sub => (.ok (acc, sub), db)
  | db, line_in :: rest, acc, sub =>
    match db.products line_in.productID with
    | none => (.error ⟨404⟩, db)
    | some product =>
      let line_total_calc := line_in.quantityOrdered * line_in.unitPrice
      let line_item_id := db.next_po_line_id.getD 1
      let db' := { db with next_po_line_id := some (line_item_id + 1) }
      let line_data : PurchaseOrderLine :=
        { purchaseOrderLineID := line_item_id
          purchaseOrderID := poid
          productID := line_in.productID
          description :=
            (match line_in.description with
             | some d => if d = "" then some product.productName else some d
             | none => some product.productName)
          quantityOrdered := line_in.quantityOrdered
          unitOfMeasure :=
            (match line_in.unitOfMeasure with
             | some u => if u = "" then product.unitOfMeasure else some u
             | none => product.unitOfMeasure)
          unitPrice := round2 line_in.unitPrice
          lineTotal := round2 line_total_calc
          quantityReceived := 0
          notes := none
          purchaseRequisitionLineID := line_in.purchaseRequisitionLineID }
      create_po_lines poid db' rest (acc ++ [line_data]) (sub + line_total_calc)

/-- Writes processed lines into `db["purchase_order_lines"]` (the save loop at
the end of the `POST` handler). -/
def save_po_lines (t : Nat → Option PurchaseOrderLine) :
    List PurchaseOrderLine → Nat → Option PurchaseOrderLine
  | [] => t
  | l :: rest => save_po_lines (setMap t l.purchaseOrderLineID l) rest

/-- The body of `create_purchase_order_endpoint` after the supplier and store
lookups: generates the document id (already bumping the sequence counter),
ensures the line-id counter exists, processes the lines, computes the header
totals and saves header and lines.  `ym` is the `utcnow().strftime`
year-month. -/
def create_po_after_validation (ym : String) (db : DB)
    (po_in : PurchaseOrderHeaderCreate) :
    Except HTTPException PurchaseOrderHeader × DB :=
      let idgen := generate_mock_po_id ym po_in.storeID db
      let generated_po_id := idgen.1
      -- the header-collision check in the source is `pass` (a no-op)
      let db1 :=
        match idgen.2.next_po_line_id with
        | none => { idgen.2 with next_po_line_id := some 1 }
        | some _ => idgen.2
      match create_po_lines generated_po_id db1 po_in.lines [] 0 with
      | (.error e, db2) => (.error e, db2)
      | (.ok (processed_lines, po_subtotal_val), db2) =>
        let calculated_subtotal := round2 po_subtotal_val
        let tax_amount_val := po_in.taxAmount.getD 0
        let shipping_cost_val := po_in.shippingCost.getD 0
        let other_charges_val := po_in.otherCharges.getD 0
        let grand_total_calc :=
          calculated_subtotal + tax_amount_val + shipping_cost_val + other_charges_val
        let db_header : PurchaseOrderHeader :=
          { purchaseOrderID := generated_po_id
            supplierID := po_in.supplierID
            storeID := po_in.storeID
            status := po_in.status.getD .Draft
            notes := po_in.notes
            paymentTermsID := po_in.paymentTermsID
            shippingAddress := po_in.shippingAddress
            billingAddress := po_in.billingAddress
            purchaseRequisitionID := po_in.purchaseRequisitionID
            subtotal := calculated_subtotal
            taxAmount := round2 tax_amount_val
            shippingCost := round2 shipping_cost_val
            otherCharges := round2 other_charges_val
            totalAmount := round2 grand_total_calc
            lines := processed_lines }
        (.ok db_header,
         { db2 with
            purchase_order_headers :=
              setMap db2.purchase_order_headers generated_po_id db_header
            purchase_order_lines := save_po_lines db2.purchase_order_lines processed_lines })

/-- Model of `create_purchase_order_endpoint` (`POST /purchase-orders`): validates the
supplier and store, then runs `create_po_after_validation` (the rest of the
handler body). -/
def create_purchase_order_endpoint (ym : String) (db : DB)
    (po_in : PurchaseOrderHeaderCreate) :
    Except HTTPException PurchaseOrderHeader × DB :=
  match db.suppliers po_in.supplierID with
  | none => (.error ⟨404⟩, db)
  | some _ =>
    match db.stores po_in.storeID with
    | none => (.error ⟨404⟩, db)
    | some _ => create_po_after_validation ym db po_in

/-- FastAPI request layer for PO creation: Pydantic rejects an invalid body
with 422 Unprocessable Entity before the endpoint body runs. -/
def create_purchase_order_request (ym : String) (db : DB)
    (po_in : PurchaseOrderHeaderCreate) :
    Except HTTPException PurchaseOrderHeader × DB :=
  if POHeaderCreateRequestValid po_in then create_purchase_order_endpoint ym db po_in
  else (.error ⟨422⟩, db)

/-- The deletion loop over the old line ids in `update_purchase_order_endpoint`
(`del db["purchase_order_lines"][line_id]` guarded by a presence check). -/
def del_po_lines (t : Nat → Option PurchaseOrderLine) :
    List Nat → Nat → Option PurchaseOrderLine
  | [] => t
  | i :: rest => del_po_lines (delMap t i) rest

/-- The line-processing loop of `update_purchase_order_endpoint`: like the
creation loop but each processed line is written to
`db["purchase_order_lines"]` immediately inside the loop. -/
def update_po_lines (poid : String) :
    DB → List PurchaseOrderLineCreate → List PurchaseOrderLine → ℚ →
    Except HTTPException (List PurchaseOrderLine × ℚ) × DB
  | db, [], acc, sub => (.ok (acc, sub), db)
  | db, line_in :: rest, acc, sub =>
    match db.products line_in.productID with
    | none => (.error ⟨404⟩, db)
    | some product =>
      let line_total_calc := line_in.quantityOrdered * line_in.unitPrice
      let line_item_id := db.next_po_line_id.getD 1
      let db' := { db with next_po_line_id := some (line_item_id + 1) }
      let line_data : PurchaseOrderLine :=
        { purchaseOrderLineID := line_item_id
          purchaseOrderID := poid
          productID := line_in.productID
          description :=
            (match line_in.description with
             | some d => if d = "" then some product.productName else some d
             | none => some product.productName)
          quantityOrdered := line_in.quantityOrdered
          unitOfMeasure :=
            (match line_in.unitOfMeasure with
             | some u => if u = "" then product.unitOfMeasure else some u
             | none => product.unitOfMeasure)
          unitPrice := round2 line_in.unitPrice
          lineTotal := round2 line_total_calc
          quantityReceived := 0
          notes := none
          purchaseRequisitionLineID := line_in.purchaseRequisitionLineID }
      let db'' :=
        { db' with
            purchase_order_lines :=
              setMap db'.purchase_order_lines line_item_id line_data }
      update_po_lines poid db'' rest (acc ++ [line_data]) (sub + line_total_calc)

/-- The `setattr` loop of the `PUT` handler applied to the
`model_dump(exclude={'lines'}, exclude_unset=True)` of the request: required
fields are always present; optional fields are applied only when sent.  The
monetary fields are overwritten unconditionally right afterwards, so their
`setattr` assignment is not modelled separately. -/
def apply_po_header_updates (h : PurchaseOrderHeader)
    (pin : PurchaseOrderHeaderCreate) : PurchaseOrderHeader :=
  { h with
    supplierID := pin.supplierID
    storeID := pin.storeID
    status := pin.status.getD h.status
    notes := applyOpt pin.notes h.notes
    paymentTermsID := applyOpt pin.paymentTermsID h.paymentTermsID
    shippingAddress := applyOpt pin.shippingAddress h.shippingAddress
    billingAddress := applyOpt pin.billingAddress h.billingAddress
    purchaseRequisitionID := applyOpt pin.purchaseRequisitionID h.purchaseRequisitionID }

/-- The body of `update_purchase_order_endpoint` after the existence and
reference checks: deletes the old lines, replaces them with freshly processed
lines (written to the line table inside the loop), recomputes totals and
stores the updated header. -/
def update_po_after_checks (db : DB) (purchase_order_id : String)
    (po_in : PurchaseOrderHeaderCreate)
    (existing_po_header : PurchaseOrderHeader) :
    Except HTTPException PurchaseOrderHeader × DB :=
  let old_line_ids := existing_po_header.lines.map (fun l => l.purchaseOrderLineID)
  let db1 :=
    { db with
        purchase_order_lines :=
          del_po_lines db.purchase_order_lines old_line_ids }
  match update_po_lines purchase_order_id db1 po_in.lines [] 0 with
  | (.error e, db2) => (.error e, db2)
  | (.ok (processed_lines, po_subtotal_val), db2) =>
    let calculated_subtotal := round2 po_subtotal_val
    let tax_amount_val := po_in.taxAmount.getD 0
    let shipping_cost_val := po_in.shippingCost.getD 0
    let other_charges_val := po_in.otherCharges.getD 0
    let grand_total_calc :=
      calculated_subtotal + tax_amount_val + shipping_cost_val + other_charges_val
    let updated :=
      { apply_po_header_updates existing_po_header po_in with
        subtotal := calculated_subtotal
        taxAmount := round2 tax_amount_val
        shippingCost := round2 shipping_cost_val
        otherCharges := round2 other_charges_val
        totalAmount := round2 grand_total_calc
        lines := processed_lines }
    (.ok updated,
     { db2 with
        purchase_order_headers :=
          setMap db2.purchase_order_headers purchase_order_id updated })

/-- Model of `update_purchase_order_endpoint` (`PUT /purchase-orders/{id}`): fetches
the header (404 when absent), re-validates supplier and store only when
truthy (Python falsiness skips the check for a zero or empty value), then
runs `update_po_after_checks`.  There is no status check of any kind. -/
def update_purchase_order_endpoint (db : DB) (purchase_order_id : String)
    (po_in : PurchaseOrderHeaderCreate) :
    Except HTTPException PurchaseOrderHeader × DB :=
  match db.purchase_order_headers purchase_order_id with
  | none => (.error ⟨404⟩, db)
  | some existing_po_header =>
    if po_in.supplierID ≠ 0 ∧ (db.suppliers po_in.supplierID).isNone then
      (.error ⟨404⟩, db)
    else if po_in.storeID ≠ "" ∧ (db.stores po_in.storeID).isNone then
      (.error ⟨404⟩, db)
    else update_po_after_checks db purchase_order_id po_in existing_po_header

/-! ### GRN endpoints (`api_grn_module.py`) -/

/-- Model of `get_next_grn_id_for_store`: initialises the nested per-store, per-month
counter to 1 when absent, returns the current value as the sequence number,
stores the incremented value, and formats `GRN-[StoreID]-[YYMM][SEQ:04d]`. -/
def get_next_grn_id_for_store (ym : String) (store_id : String) (db : DB) :
    String × DB :=
  let seq_num := (db.next_grn_header_id_counter store_id ym).getD 1
  ("GRN-" ++ store_id ++ "-" ++ ym ++ fmtNat 4 seq_num,
   { db with
      next_grn_header_id_counter :=
        setMap2 db.next_grn_header_id_counter store_id ym (seq_num + 1) })

/-- The `if grn_in.supplierID and (... not in db["suppliers"])` guard: the
check only fires for a truthy (present, non-zero) supplier id whose lookup
fails. -/
def grn_supplier_check_fails (db : DB) (sid : Option Nat) : Bool :=
  match sid with
  | none => false
  | some s => s != 0 && (db.suppliers s).isNone

/-- The `if grn_in.purchaseOrderID and (... not in db["purchase_order_headers"])`
guard. -/
def grn_po_check_fails (db : DB) (pid : Option String) : Bool :=
  match pid with
  | none => false
  | some p => p != "" && (db.purchase_order_headers p).isNone

/-- The product/expiry/batch validation loop of `create_grn_endpoint`
(lines 61–68 of the source): purely read-only, returns the first failure. -/
def validate_grn_lines (db : DB) : List GoodsReceiptNoteLineCreate → Option HTTPException
  | [] => none
  | line :: rest =>
    match db.products line.productID with
    | none => some ⟨400⟩
    | some product =>
      if product.requiresExpiryDate && line.expiryDate.isNone then some ⟨400⟩
      else if product.requiresBatchNumber && !pyTruthyStr line.batchNumber then some ⟨400⟩
      else validate_grn_lines db rest

/-- The GRN line-creation loop: allocates `db["next_grn_line_id"]`, writes the
line into `db["goods_receipt_note_lines"]`, bumps the counter, and collects
the created lines in order. -/
def create_grn_lines (hdrID : String) :
    DB → List GoodsReceiptNoteLineCreate → List GoodsReceiptNoteLine →
    List GoodsReceiptNoteLine × DB
  | db, [], acc => (acc, db)
  | db, line_in :: rest, acc =>
    let line_id := db.next_grn_line_id
    let db_line : GoodsReceiptNoteLine :=
      { grnLineID := line_id
        grnHeaderID := hdrID
        productID := line_in.productID
        purchaseOrderLineID := line_in.purchaseOrderLineID
        quantityOrdered := line_in.quantityOrdered
        quantityReceived := line_in.quantityReceived
        unitPriceAtReceipt := line_in.unitPriceAtReceipt
        batchNumber := line_in.batchNumber
        expiryDate := line_in.expiryDate
        notes := line_in.notes }
    let db' :=
      { db with
          goods_receipt_note_lines :=
            setMap db.goods_receipt_note_lines line_id db_line
          next_grn_line_id := line_id + 1 }
    create_grn_lines hdrID db' rest (acc ++ [db_line])

/-- The body of `create_grn_endpoint` after all validations: generates the id
(bumping the sequence counter), checks for an id collision (500), creates the
lines and stores the header. -/
def create_grn_after_validation (ym : String) (db : DB)
    (grn_in : GoodsReceiptNoteHeaderCreate) :
    Except HTTPException GoodsReceiptNoteHeader × DB :=
  let idgen := get_next_grn_id_for_store ym grn_in.storeID db
  let generated_grn_id := idgen.1
  let db1 := idgen.2
  if (db1.goods_receipt_note_headers generated_grn_id).isSome then
    (.error ⟨500⟩, db1)
  else
    let created := create_grn_lines generated_grn_id db1 grn_in.lines []
    let db_grn_header : GoodsReceiptNoteHeader :=
      { grnID := generated_grn_id
        purchaseOrderID := grn_in.purchaseOrderID
        supplierID := grn_in.supplierID
        storeID := grn_in.storeID
        supplierInvoiceNo := grn_in.supplierInvoiceNo
        receivedByUserID := grn_in.receivedByUserID
        status := grn_in.status.getD "Draft"
        notes := grn_in.notes
        lines := created.1 }
    (.ok db_grn_header,
     { created.2 with
        goods_receipt_note_headers :=
          setMap created.2.goods_receipt_note_headers generated_grn_id db_grn_header })

/-- Model of `create_grn_endpoint` (`POST /grns`): validates store, optional supplier
and PO references, and every line's product with its conditional
expiry/batch requirements — all before any write; then runs
`create_grn_after_validation`. -/
def create_grn_endpoint (ym : String) (db : DB)
    (grn_in : GoodsReceiptNoteHeaderCreate) :
    Except HTTPException GoodsReceiptNoteHeader × DB :=
  if (db.stores grn_in.storeID).isNone then (.error ⟨400⟩, db)
  else if grn_supplier_check_fails db grn_in.supplierID then (.error ⟨400⟩, db)
  else if grn_po_check_fails db grn_in.purchaseOrderID then (.error ⟨400⟩, db)
  else
    match validate_grn_lines db grn_in.lines with
    | some e => (.error e, db)
    | none => create_grn_after_validation ym db grn_in

/-- FastAPI request layer for GRN creation (Pydantic body validation; note
that an empty `lines` list is accepted). -/
def create_grn_request (ym : String) (db : DB)
    (grn_in : GoodsReceiptNoteHeaderCreate) :
    Except HTTPException GoodsReceiptNoteHeader × DB :=
  if GRNHeaderCreateRequestValid grn_in then create_grn_endpoint ym db grn_in
  else (.error ⟨422⟩, db)

/-- Model of `get_grn_by_id_endpoint` (`GET /grns/{grn_id}`). -/
def get_grn_by_id_endpoint (db : DB) (grn_id : String) :
    Except HTTPException GoodsReceiptNoteHeader × DB :=
  match db.goods_receipt_note_headers grn_id with
  | none => (.error ⟨404⟩, db)
  | some grn => (.ok grn, db)

/-- Model of `update_grn_endpoint` (`PUT /grns/{grn_id}`): 404 when absent; otherwise
applies the `exclude_unset` header-field update (the posted-status test only
prints a warning), retains the original lines unconditionally, and stores
the copy back.  The request body's `lines` are ignored. -/
def update_grn_endpoint (db : DB) (grn_id : String)
    (grn_update_data : GoodsReceiptNoteHeaderCreate) :
    Except HTTPException GoodsReceiptNoteHeader × DB :=
  match db.goods_receipt_note_headers grn_id with
  | none => (.error ⟨404⟩, db)
  | some current_grn =>
    let updated_grn_header : GoodsReceiptNoteHeader :=
      { current_grn with
          purchaseOrderID := applyOpt grn_update_data.purchaseOrderID current_grn.purchaseOrderID
          supplierID := applyOpt grn_update_data.supplierID current_grn.supplierID
          storeID := grn_update_data.storeID
          supplierInvoiceNo := applyOpt grn_update_data.supplierInvoiceNo current_grn.supplierInvoiceNo
          receivedByUserID := applyOpt grn_update_data.receivedByUserID current_grn.receivedByUserID
          status := grn_update_data.status.getD current_grn.status
          notes := applyOpt grn_update_data.notes current_grn.notes
          lines := current_grn.lines }
    (.ok updated_grn_header,
     { db with
        goods_receipt_note_headers :=
          setMap db.goods_receipt_note_headers grn_id updated_grn_header })

/-- Model of `delete_grn_endpoint` (`DELETE /grns/{grn_id}`): 404 when absent;
otherwise deletes every line whose `grnHeaderID` equals the id, then the
header.  No status restriction of any kind is performed. -/
def delete_grn_endpoint (db : DB) (grn_id : String) :
    Except HTTPException Unit × DB :=
  match db.goods_receipt_note_headers grn_id with
  | none => (.error ⟨404⟩, db)
  | some _ =>
    (.ok (),
     { db with
        goods_receipt_note_lines := fun lid =>
          match db.goods_receipt_note_lines lid with
          | some l => if l.grnHeaderID = grn_id then none else some l
          | none => none
        goods_receipt_note_headers := delMap db.goods_receipt_note_headers grn_id })

/-! ### Concrete fixtures (used by witnesses and counterexamples) -/

/-- The rational 25.50 in reduced form. -/
def q25_50 : ℚ := qlit 51 2 (by norm_num) (by norm_num [Int.natAbs, Nat.Coprime])

/-- The rational 1.004 in reduced form. -/
def q1_004 : ℚ := qlit 251 250 (by norm_num) (by norm_num [Int.natAbs, Nat.Coprime])

def product201 : Product := ⟨201, "Widget A", some "pcs", false, false⟩

/-- A product with `requiresBatchNumber=True`. -/
def product202 : Product := ⟨202, "Batch Gadget", some "pcs", false, true⟩

/-- A product with `requiresExpiryDate=True`. -/
def product203 : Product := ⟨203, "Perishable", some "pcs", true, false⟩

def supplier1 : Supplier := ⟨1, "Supplier X"⟩

def storeSH01 : Store := ⟨"SH01", "Main Store"⟩

def poLine1 : PurchaseOrderLine :=
  { purchaseOrderLineID := 1
    purchaseOrderID := "PO-SH01-2405001"
    productID := 201
    description := some "Widget A"
    quantityOrdered := 10
    unitOfMeasure := some "pcs"
    unitPrice := q25_50
    lineTotal := 255
    quantityReceived := 3
    notes := none
    purchaseRequisitionLineID := none }

/-- A stored purchase order in status `FullyReceived`, with goods already
received against its single line. -/
def poFR : PurchaseOrderHeader :=
  { purchaseOrderID := "PO-SH01-2405001"
    supplierID := 1
    storeID := "SH01"
    status := .FullyReceived
    notes := some "old notes"
    paymentTermsID := none
    shippingAddress := none
    billingAddress := none
    purchaseRequisitionID := none
    subtotal := 255
    taxAmount := 0
    shippingCost := 0
    otherCharges := 0
    totalAmount := 255
    lines := [poLine1] }

def grnLine1 : GoodsReceiptNoteLine :=
  ⟨1, "GRN-SH01-24050001", 201, none, none, 5, none, none, none, none⟩

def grnLine2 : GoodsReceiptNoteLine :=
  ⟨2, "GRN-SH01-24050001", 201, none, none, 7, none, none, none, none⟩

/-- A stored GRN in status `Posted` with two lines. -/
def grnPosted : GoodsReceiptNoteHeader :=
  ⟨"GRN-SH01-24050001", none, some 1, "SH01", none, none, "Posted", none,
   [grnLine1, grnLine2]⟩

/-- Base database fixture: one supplier, store `SH01`, products 201–203, a
stored `FullyReceived` PO with one line, and a stored `Posted` GRN with two
lines. -/
def dbBase : DB :=
  { suppliers := fun sid => if sid = 1 then some supplier1 else none
    stores := fun s => if s = "SH01" then some storeSH01 else none
    products := fun pid =>
      if pid = 201 then some product201
      else if pid = 202 then some product202
      else if pid = 203 then some product203
      else none
    po_sequences := fun _ => none
    next_po_line_id := some 10
    purchase_order_headers := fun k =>
      if k = "PO-SH01-2405001" then some poFR else none
    purchase_order_lines := fun i => if i = 1 then some poLine1 else none
    goods_receipt_note_headers := fun k =>
      if k = "GRN-SH01-24050001" then some grnPosted else none
    goods_receipt_note_lines := fun i =>
      if i = 1 then some grnLine1 else if i = 2 then some grnLine2 else none
    next_grn_header_id_counter := fun _ _ => none
    next_grn_line_id := 5 }

/-! ### String helper lemmas for identifier distinctness -/

theorem string_data_append (s t : String) : (s ++ t).data = s.data ++ t.data := rfl

theorem append_fmtNat_ne (p : String) (w a b : Nat) (h : a ≠ b) :
    p ++ fmtNat w a ≠ p ++ fmtNat w b := by
  intro he
  apply h
  have hd := congrArg String.data he
  rw [string_data_append, string_data_append] at hd
  have hfd : (fmtNat w a).data = (fmtNat w b).data := List.append_cancel_left hd
  have hp := congrArg parseDec hfd
  rw [show (fmtNat w a).data = padLeft w (decRepr a) from rfl,
      show (fmtNat w b).data = padLeft w (decRepr b) from rfl,
      parseDec_padLeft, parseDec_padLeft] at hp
  exact hp

/-! ### C1: scoped sequence generation -/

/-- Claim C1.  For both generators and any starting state, two sequential id
generations in the same (store, year-month) scope embed the sequence numbers
`s+1` and `s+2` (so numbering starts at 1 on a fresh scope — where the stored
counter reads `none`/`getD` default — and strictly increases), and the two
formatted ids are distinct. -/
theorem po_grn_sequence_monotone_distinct (db : DB) (ym store : String) :
    (generate_mock_po_id ym store db).2.po_sequences ("PO_" ++ store ++ "_" ++ ym)
      = some ((db.po_sequences ("PO_" ++ store ++ "_" ++ ym)).getD 0 + 1) ∧
    (generate_mock_po_id ym store
        (generate_mock_po_id ym store db).2).2.po_sequences ("PO_" ++ store ++ "_" ++ ym)
      = some ((db.po_sequences ("PO_" ++ store ++ "_" ++ ym)).getD 0 + 2) ∧
    (generate_mock_po_id ym store db).1
      ≠ (generate_mock_po_id ym store (generate_mock_po_id ym store db).2).1 ∧
    (get_next_grn_id_for_store ym store db).2.next_grn_header_id_counter store ym
      = some ((db.next_grn_header_id_counter store ym).getD 1 + 1) ∧
    (get_next_grn_id_for_store ym store
        (get_next_grn_id_for_store ym store db).2).2.next_grn_header_id_counter store ym
      = some ((db.next_grn_header_id_counter store ym).getD 1 + 2) ∧
    (get_next_grn_id_for_store ym store db).1
      ≠ (get_next_grn_id_for_store ym store (get_next_grn_id_for_store ym store db).2).1 := by
  refine ⟨?_, ?_, ?_, ?_, ?_, ?_⟩
  · simp [generate_mock_po_id, setMap]
  · simp [generate_mock_po_id, setMap]
  · simp only [generate_mock_po_id, setMap, if_pos rfl]
    exact append_fmtNat_ne _ 3 _ _ (by simp)
  · simp [get_next_grn_id_for_store, setMap2]
  · simp [get_next_grn_id_for_store, setMap2]
  · simp only [get_next_grn_id_for_store, setMap2, if_pos (And.intro rfl rfl)]
    exact append_fmtNat_ne _ 4 _ _ (by simp)

/-! ### C6: GRN deletion cascades to lines -/

/-- Claim C6.  A successful GRN deletion removes every line whose
`grnHeaderID` is the deleted id, and a subsequent GET of the id returns 404;
both effects appear in the same resulting state. -/
theorem grn_delete_cascades (db : DB) (gid : String) (u : Unit) (db' : DB)
    (h : delete_grn_endpoint db gid = (.ok u, db')) :
    (∀ lid l, db'.goods_receipt_note_lines lid = some l → l.grnHeaderID ≠ gid) ∧
    get_grn_by_id_endpoint db' gid = (.error ⟨404⟩, db') := by
  unfold delete_grn_endpoint at h
  cases hh : db.goods_receipt_note_headers gid with
  | none => rw [hh] at h; exact absurd (congrArg Prod.fst h) (by simp)
  | some hdr =>
    rw [hh] at h
    injection h with h1 h2
    subst h2
    constructor
    · intro lid l hl
      simp only at hl
      cases hml : db.goods_receipt_note_lines lid with
      | none => rw [hml] at hl; cases hl
      | some l0 =>
        rw [hml] at hl
        change (if l0.grnHeaderID = gid then none else some l0) = some l at hl
        by_cases hg : l0.grnHeaderID = gid
        · rw [if_pos hg] at hl; cases hl
        · rw [if_neg hg] at hl
          injection hl with hll
          subst hll
          exact hg
    · simp [get_grn_by_id_endpoint, delMap]

/-- Witness for C6 at the concrete fixture: deleting the stored GRN succeeds,
and the theorem's conclusions hold for the resulting state. -/
theorem grn_delete_cascades_witness :
    delete_grn_endpoint dbBase "GRN-SH01-24050001"
      = (.ok (), (delete_grn_endpoint dbBase "GRN-SH01-24050001").2) ∧
    (∀ lid l,
      (delete_grn_endpoint dbBase "GRN-SH01-24050001").2.goods_receipt_note_lines lid
          = some l →
        l.grnHeaderID ≠ "GRN-SH01-24050001") ∧
    get_grn_by_id_endpoint (delete_grn_endpoint dbBase "GRN-SH01-24050001").2
        "GRN-SH01-24050001"
      = (.error ⟨404⟩, (delete_grn_endpoint dbBase "GRN-SH01-24050001").2) := by
  have h : delete_grn_endpoint dbBase "GRN-SH01-24050001"
      = (.ok (), (delete_grn_endpoint dbBase "GRN-SH01-24050001").2) := rfl
  exact ⟨h, (grn_delete_cascades dbBase "GRN-SH01-24050001" () _ h).1,
         (grn_delete_cascades dbBase "GRN-SH01-24050001" () _ h).2⟩

/-! ### C5: deletion is not gated on status -/

/-- Counterexample to claim C5 as stated: the stored GRN has status
`Posted` — neither `Draft` nor `Cancelled` — yet `DELETE` succeeds (it is not
rejected with 409) and removes the header. -/
theorem grn_delete_posted_succeeds_cex :
    dbBase.goods_receipt_note_headers "GRN-SH01-24050001" = some grnPosted ∧
    grnPosted.status = "Posted" ∧
    ("Posted" : String) ≠ "Draft" ∧ ("Posted" : String) ≠ "Cancelled" ∧
    (delete_grn_endpoint dbBase "GRN-SH01-24050001").1 = .ok () ∧
    (delete_grn_endpoint dbBase "GRN-SH01-24050001").2.goods_receipt_note_headers
        "GRN-SH01-24050001" = none := by
  refine ⟨rfl, rfl, by decide, by decide, rfl, ?_⟩
  show delMap dbBase.goods_receipt_note_headers "GRN-SH01-24050001" "GRN-SH01-24050001"
      = none
  simp [delMap]

/-- Amended claim C5: `DELETE /grns/{id}` performs no status check at all — it
succeeds (removing the header) for every stored GRN regardless of its status,
and fails with 404 exactly when the id is absent. -/
theorem grn_delete_any_existing (db : DB) (gid : String) :
    ((db.goods_receipt_note_headers gid).isSome →
      (delete_grn_endpoint db gid).1 = .ok () ∧
      (delete_grn_endpoint db gid).2.goods_receipt_note_headers gid = none) ∧
    ((db.goods_receipt_note_headers gid).isNone →
      delete_grn_endpoint db gid = (.error ⟨404⟩, db)) := by
  cases hh : db.goods_receipt_note_headers gid with
  | none => simp [delete_grn_endpoint, hh]
  | some hdr => simp [delete_grn_endpoint, hh, delMap]

/-- Witness for the amended C5 at the concrete fixture. -/
theorem grn_delete_any_existing_witness :
    (dbBase.goods_receipt_note_headers "GRN-SH01-24050001").isSome = true ∧
    (delete_grn_endpoint dbBase "GRN-SH01-24050001").1 = .ok () ∧
    (delete_grn_endpoint dbBase "GRN-SH01-24050001").2.goods_receipt_note_headers
        "GRN-SH01-24050001" = none :=
  ⟨rfl, (grn_delete_any_existing dbBase "GRN-SH01-24050001").1 rfl⟩

/-! ### C4: updates are not gated on status either -/

/-- Request fixture for C4 against the PO module: a line-replacing update
(product 202 instead of the stored product 201). -/
def pinC4 : PurchaseOrderHeaderCreate :=
  ⟨1, "SH01", none, none, none, none, none, none,
   [⟨202, 1, 1, none, none, none⟩], none, none, none⟩

/-- Request fixture for C4 against the GRN module: submits a replacement line
(product 202) and a new `notes` value. -/
def ginC4 : GoodsReceiptNoteHeaderCreate :=
  ⟨none, none, "SH01", none, none, none, some "new note",
   [⟨202, none, none, 1, none, some "B1", none, none⟩]⟩

/-- Claim C4 against the code (supporting the code-bug verdict): the stored
PO has status `FullyReceived`, yet a line-altering `PUT` returns 200 — not
409 `ConflictingState` — and silently replaces the lines; the stored GRN has
status `Posted`, yet a line-altering `PUT` returns 200 and silently keeps the
old lines while applying the header-field (`notes`) update. -/
theorem update_ignores_status_behavior :
    (dbBase.purchase_order_headers "PO-SH01-2405001").map (fun h => h.status)
      = some .FullyReceived ∧
    (dbBase.purchase_order_headers "PO-SH01-2405001").map
        (fun h => h.lines.map (fun l => l.productID)) = some [201] ∧
    (update_purchase_order_endpoint dbBase "PO-SH01-2405001" pinC4).1.isOk = true ∧
    ((update_purchase_order_endpoint dbBase "PO-SH01-2405001" pinC4).2.purchase_order_headers
        "PO-SH01-2405001").map (fun h => h.lines.map (fun l => l.productID))
      = some [202] ∧
    ((update_purchase_order_endpoint dbBase "PO-SH01-2405001" pinC4).2.purchase_order_headers
        "PO-SH01-2405001").map (fun h => h.status) = some .FullyReceived ∧
    (dbBase.goods_receipt_note_headers "GRN-SH01-24050001").map (fun h => h.status)
      = some "Posted" ∧
    ginC4.lines.map (fun l => l.productID) = [202] ∧
    (update_grn_endpoint dbBase "GRN-SH01-24050001" ginC4).1.isOk = true ∧
    ((update_grn_endpoint dbBase "GRN-SH01-24050001" ginC4).2.goods_receipt_note_headers
        "GRN-SH01-24050001").map (fun h => h.lines.map (fun l => l.productID))
      = some [201, 201] ∧
    ((update_grn_endpoint dbBase "GRN-SH01-24050001" ginC4).2.goods_receipt_note_headers
        "GRN-SH01-24050001").map (fun h => h.notes) = some (some "new note") := by
  refine ⟨rfl, rfl, rfl, ?_, ?_, rfl, rfl, rfl, ?_, ?_⟩ <;> rfl

/-! ### Helper lemmas about the PO creation loop -/

/-- The running subtotal accumulated by the PO loops (`po_subtotal_val`):
a left fold of the unrounded `quantityOrdered * unitPrice` products. -/
def po_lines_subtotal (ls : List PurchaseOrderLineCreate) : ℚ :=
  ls.foldl (fun a l => a + l.quantityOrdered * l.unitPrice) 0

theorem create_po_lines_frame (poid : String) :
    ∀ ls db acc sub,
      ((create_po_lines poid db ls acc sub).2.purchase_order_headers
          = db.purchase_order_headers) ∧
      ((create_po_lines poid db ls acc sub).2.purchase_order_lines
          = db.purchase_order_lines) ∧
      ((create_po_lines poid db ls acc sub).2.po_sequences = db.po_sequences) ∧
      ((create_po_lines poid db ls acc sub).2.suppliers = db.suppliers) ∧
      ((create_po_lines poid db ls acc sub).2.stores = db.stores) ∧
      ((create_po_lines poid db ls acc sub).2.products = db.products) ∧
      ((create_po_lines poid db ls acc sub).2.goods_receipt_note_headers
          = db.goods_receipt_note_headers) ∧
      ((create_po_lines poid db ls acc sub).2.goods_receipt_note_lines
          = db.goods_receipt_note_lines) := by
  intro ls
  induction ls with
  | nil => intro db acc sub; exact ⟨rfl, rfl, rfl, rfl, rfl, rfl, rfl, rfl⟩
  | cons l rest ih =>
    intro db acc sub
    cases hp : db.products l.productID with
    | none => simp [create_po_lines, hp]
    | some product =>
      simp only [create_po_lines, hp]
      simpa using ih _ _ _

theorem create_po_lines_ok_payload (poid : String) :
    ∀ ls db acc sub res s db',
      create_po_lines poid db ls acc sub = (.ok (res, s), db') →
      s = ls.foldl (fun a l => a + l.quantityOrdered * l.unitPrice) sub ∧
      res.map (fun l => l.lineTotal)
        = acc.map (fun l => l.lineTotal)
          ++ ls.map (fun l => round2 (l.quantityOrdered * l.unitPrice)) := by
  intro ls
  induction ls with
  | nil =>
    intro db acc sub res s db' h
    obtain ⟨h1, _⟩ := Prod.mk.injEq .. |>.mp h
    obtain ⟨h2, h3⟩ := Prod.mk.injEq .. |>.mp (Except.ok.injEq .. |>.mp h1)
    subst h2; subst h3
    simp
  | cons l rest ih =>
    intro db acc sub res s db' h
    rw [show create_po_lines poid db (l :: rest) acc sub
        = (match db.products l.productID with
           | none => (.error ⟨404⟩, db)
           | some product => create_po_lines poid
               { db with next_po_line_id := some (db.next_po_line_id.getD 1 + 1) }
               rest
               (acc ++ [{ purchaseOrderLineID := db.next_po_line_id.getD 1
                          purchaseOrderID := poid
                          productID := l.productID
                          description :=
                            (match l.description with
                             | some d => if d = "" then some product.productName else some d
                             | none => some product.productName)
                          quantityOrdered := l.quantityOrdered
                          unitOfMeasure :=
                            (match l.unitOfMeasure with
                             | some u => if u = "" then product.unitOfMeasure else some u
                             | none => product.unitOfMeasure)
                          unitPrice := round2 l.unitPrice
                          lineTotal := round2 (l.quantityOrdered * l.unitPrice)
                          quantityReceived := 0
                          notes := none
                          purchaseRequisitionLineID := l.purchaseRequisitionLineID }])
               (sub + l.quantityOrdered * l.unitPrice)) from rfl] at h
    cases hp : db.products l.productID with
    | none => rw [hp] at h; exact absurd (congrArg Prod.fst h) (by simp)
    | some product =>
      rw [hp] at h
      obtain ⟨hs, hres⟩ := ih _ _ _ _ _ _ h
      refine ⟨hs, ?_⟩
      rw [hres]
      simp

theorem create_po_lines_isOk (poid : String) :
    ∀ ls db acc sub,
      (∀ l ∈ ls, (db.products l.productID).isSome) →
      ∃ res s db', create_po_lines poid db ls acc sub = (.ok (res, s), db') := by
  intro ls
  induction ls with
  | nil => intro db acc sub _; exact ⟨acc, sub, db, rfl⟩
  | cons l rest ih =>
    intro db acc sub hall
    have hl : (db.products l.productID).isSome := hall l (List.mem_cons_self l rest)
    obtain ⟨p, hp⟩ := Option.isSome_iff_exists.mp hl
    have hrest : ∀ x ∈ rest,
        (({ db with next_po_line_id := some (db.next_po_line_id.getD 1 + 1) } : DB).products
            x.productID).isSome :=
      fun x hx => hall x (List.mem_cons_of_mem l hx)
    obtain ⟨res, s, db', hres⟩ := ih _ _ _ hrest
    refine ⟨res, s, db', ?_⟩
    show (match db.products l.productID with
      | none => _
      | some product => _) = _
    rw [hp]
    exact hres

/-- Success characterisation of PO creation: when the supplier, store and all
line products resolve, creation succeeds; the generated id embeds the bumped
per-(store, month) sequence number, the header totals are computed from the
unrounded running subtotal, and only the document tables and counters of the
state change. -/
theorem create_po_ok (ym : String) (db : DB) (pin : PurchaseOrderHeaderCreate)
    (hsup : (db.suppliers pin.supplierID).isSome)
    (hst : (db.stores pin.storeID).isSome)
    (hprod : ∀ l ∈ pin.lines, (db.products l.productID).isSome) :
    ∃ hd db',
      create_purchase_order_endpoint ym db pin = (.ok hd, db') ∧
      hd.purchaseOrderID
        = "PO-" ++ pyUpper pin.storeID ++ "-" ++ ym
            ++ fmtNat 3 ((db.po_sequences ("PO_" ++ pin.storeID ++ "_" ++ ym)).getD 0 + 1) ∧
      hd.subtotal = round2 (po_lines_subtotal pin.lines) ∧
      hd.lines.map (fun l => l.lineTotal)
        = pin.lines.map (fun l => round2 (l.quantityOrdered * l.unitPrice)) ∧
      hd.totalAmount
        = round2 (round2 (po_lines_subtotal pin.lines) + pin.taxAmount.getD 0
            + pin.shippingCost.getD 0 + pin.otherCharges.getD 0) ∧
      hd.taxAmount = round2 (pin.taxAmount.getD 0) ∧
      hd.status = pin.status.getD .Draft ∧
      db'.suppliers = db.suppliers ∧
      db'.stores = db.stores ∧
      db'.products = db.products ∧
      db'.po_sequences
        = setMap db.po_sequences ("PO_" ++ pin.storeID ++ "_" ++ ym)
            ((db.po_sequences ("PO_" ++ pin.storeID ++ "_" ++ ym)).getD 0 + 1) := by
  obtain ⟨sup, hsup'⟩ := Option.isSome_iff_exists.mp hsup
  obtain ⟨st, hst'⟩ := Option.isSome_iff_exists.mp hst
  have hend : create_purchase_order_endpoint ym db pin
      = create_po_after_validation ym db pin := by
    unfold create_purchase_order_endpoint
    rw [hsup', hst']
  have hens : ∃ db1,
      (match (generate_mock_po_id ym pin.storeID db).2.next_po_line_id with
        | none =>
          { (generate_mock_po_id ym pin.storeID db).2 with next_po_line_id := some 1 }
        | some _ => (generate_mock_po_id ym pin.storeID db).2) = db1 ∧
      db1.products = db.products ∧
      db1.suppliers = db.suppliers ∧
      db1.stores = db.stores ∧
      db1.po_sequences
        = setMap db.po_sequences ("PO_" ++ pin.storeID ++ "_" ++ ym)
            ((db.po_sequences ("PO_" ++ pin.storeID ++ "_" ++ ym)).getD 0 + 1) := by
    cases hnl : (generate_mock_po_id ym pin.storeID db).2.next_po_line_id with
    | none => exact ⟨_, rfl, rfl, rfl, rfl, rfl⟩
    | some c => exact ⟨_, rfl, rfl, rfl, rfl, rfl⟩
  obtain ⟨db1, hdb1, hpr1, hsu1, hst1, hsq1⟩ := hens
  have hprod1 : ∀ l ∈ pin.lines, (db1.products l.productID).isSome := by
    intro l hl
    rw [hpr1]
    exact hprod l hl
  obtain ⟨res, s, db3, hloop⟩ :=
    create_po_lines_isOk (generate_mock_po_id ym pin.storeID db).1 pin.lines db1 [] 0 hprod1
  obtain ⟨hs, hres⟩ :=
    create_po_lines_ok_payload (generate_mock_po_id ym pin.storeID db).1
      pin.lines db1 [] 0 res s db3 hloop
  have hfr := create_po_lines_frame (generate_mock_po_id ym pin.storeID db).1 pin.lines db1 [] 0
  rw [hloop] at hfr
  rw [hend]
  unfold create_po_after_validation
  simp only
  rw [hdb1, hloop]
  simp only
  refine ⟨_, _, rfl, rfl, ?_, ?_, ?_, rfl, rfl, ?_, ?_, ?_, ?_⟩
  · simp only [hs]
    rfl
  · simpa using hres
  · simp only [hs]
    rfl
  · show db3.suppliers = db.suppliers
    rw [hfr.2.2.2.1, hsu1]
  · show db3.stores = db.stores
    rw [hfr.2.2.2.2.1, hst1]
  · show db3.products = db.products
    rw [hfr.2.2.2.2.2.1, hpr1]
  · show db3.po_sequences = _
    rw [hfr.2.2.1, hsq1]

/-- Inversion: a successful PO creation loop implies every referenced product
was present (the loop's product lookups read a products table that the loop
itself never modifies). -/
theorem create_po_lines_products_present (poid : String) :
    ∀ ls db acc sub r db',
      create_po_lines poid db ls acc sub = (.ok r, db') →
      ∀ l ∈ ls, (db.products l.productID).isSome := by
  intro ls
  induction ls with
  | nil => intro db acc sub r db' _ l hl; cases hl
  | cons l0 rest ih =>
    intro db acc sub r db' h l hl
    cases hp : db.products l0.productID with
    | none =>
      simp only [create_po_lines, hp] at h
      exact absurd (congrArg Prod.fst h) (by simp)
    | some product =>
      simp only [create_po_lines, hp] at h
      rcases List.mem_cons.mp hl with h0 | hmem
      · subst h0; simp [hp]
      · exact ih _ _ _ _ _ h l hmem

/-! ### C2: header totals versus line totals -/

/-- Claim C2 as stated: the stored subtotal is the 2-decimal rounding of the
sum of the stored (already rounded) line totals, each stored line total is
`round(qty * price, 2)`, the grand total is the rounding of the sum of the
stored header components, and — because rounding is said to happen at each
boundary — the subtotal coincides with the plain sum of the rounded line
totals. -/
def po_header_totals_claim (hd : PurchaseOrderHeader) : Prop :=
  hd.subtotal = round2 ((hd.lines.map (fun l => l.lineTotal)).sum) ∧
  (∀ l ∈ hd.lines, l.lineTotal = round2 (l.quantityOrdered * l.unitPrice)) ∧
  hd.totalAmount = round2 (hd.subtotal + hd.taxAmount + hd.shippingCost + hd.otherCharges) ∧
  hd.subtotal = (hd.lines.map (fun l => l.lineTotal)).sum

/-- PO creation request with two lines of `quantityOrdered 1`,
`unitPrice 1.004` (a case where the rounded line totals sum to 2.00 while the
unrounded subtotal 2.008 rounds to 2.01). -/
def pinC2 : PurchaseOrderHeaderCreate :=
  ⟨1, "SH01", none, none, none, none, none, none,
   [⟨201, 1, q1_004, none, none, none⟩, ⟨201, 1, q1_004, none, none, none⟩],
   none, none, none⟩

theorem q1_004_val : q1_004 = 251 / 250 := by
  rw [q1_004, qlit_eq]
  norm_num

theorem round2_one_mul_q1_004 : round2 (1 * q1_004) = 1 := by
  have h := round2_down (1 * q1_004) 100 (by rw [q1_004_val]; norm_num)
    (by rw [q1_004_val]; norm_num)
  rw [h]
  norm_num

/-- Counterexample to claim C2 as stated: creating a PO from `pinC2`
succeeds, but the stored header violates the claimed subtotal equations —
the code sums the unrounded products (2.008, rounded once to 2.01) while the
stored line totals are already rounded (1.00 each, summing to 2.00). -/
theorem po_totals_claim_cex :
    ∃ hd db',
      create_purchase_order_endpoint "2406" dbBase pinC2 = (.ok hd, db') ∧
      ¬ po_header_totals_claim hd := by
  obtain ⟨hd, db', heq, _, hsub, hmap, _, _, _, _⟩ :=
    create_po_ok "2406" dbBase pinC2 (by decide) (by decide)
      (by intro l hl; fin_cases hl <;> decide)
  refine ⟨hd, db', heq, ?_⟩
  intro hclaim
  have hsum : (hd.lines.map (fun l => l.lineTotal)).sum = 2 := by
    rw [hmap]
    show (List.map _ [(⟨201, 1, q1_004, none, none, none⟩ : PurchaseOrderLineCreate),
      ⟨201, 1, q1_004, none, none, none⟩]).sum = 2
    rw [List.map_cons, List.map_cons, List.map_nil]
    simp only [List.sum_cons, List.sum_nil]
    rw [round2_one_mul_q1_004]
    norm_num
  have hsub201 : hd.subtotal = 201 / 100 := by
    rw [hsub]
    show round2 (po_lines_subtotal pinC2.lines) = 201 / 100
    have hval : po_lines_subtotal pinC2.lines = 0 + 1 * q1_004 + 1 * q1_004 := rfl
    have h := round2_up (po_lines_subtotal pinC2.lines) 200
      (by rw [hval, q1_004_val]; norm_num) (by rw [hval, q1_004_val]; norm_num)
    rw [h]
    norm_num
  have h4 := hclaim.2.2.2
  rw [hsub201, hsum] at h4
  norm_num at h4

/-- Amended claim C2: for every successful PO creation the stored subtotal is
`round(Σ unrounded qty·price, 2)` (a single rounding of the raw running sum —
not the sum of the already-rounded line totals, from which it can differ by a
cent); each stored line total is `round(qty · price, 2)`; and the stored
grand total is `round(subtotal + taxRaw + shippingRaw + otherRaw, 2)` over
the raw request charge values, while the stored charge fields themselves are
rounded copies. -/
theorem po_create_totals (ym : String) (db : DB) (pin : PurchaseOrderHeaderCreate)
    (hd : PurchaseOrderHeader) (db' : DB)
    (h : create_purchase_order_endpoint ym db pin = (.ok hd, db')) :
    hd.subtotal = round2 (po_lines_subtotal pin.lines) ∧
    hd.lines.map (fun l => l.lineTotal)
      = pin.lines.map (fun l => round2 (l.quantityOrdered * l.unitPrice)) ∧
    hd.totalAmount
      = round2 (round2 (po_lines_subtotal pin.lines) + pin.taxAmount.getD 0
          + pin.shippingCost.getD 0 + pin.otherCharges.getD 0) ∧
    hd.taxAmount = round2 (pin.taxAmount.getD 0) := by
  have hsup : (db.suppliers pin.supplierID).isSome := by
    cases hs' : db.suppliers pin.supplierID with
    | none =>
      unfold create_purchase_order_endpoint at h
      rw [hs'] at h
      exact absurd (congrArg Prod.fst h) (by simp)
    | some _ => rfl
  obtain ⟨sup, hsup'⟩ := Option.isSome_iff_exists.mp hsup
  have hst : (db.stores pin.storeID).isSome := by
    cases hs' : db.stores pin.storeID with
    | none =>
      unfold create_purchase_order_endpoint at h
      rw [hsup', hs'] at h
      exact absurd (congrArg Prod.fst h) (by simp)
    | some _ => rfl
  obtain ⟨st, hst'⟩ := Option.isSome_iff_exists.mp hst
  have hend : create_purchase_order_endpoint ym db pin
      = create_po_after_validation ym db pin := by
    unfold create_purchase_order_endpoint
    rw [hsup', hst']
  have hens : ∃ db1,
      (match (generate_mock_po_id ym pin.storeID db).2.next_po_line_id with
        | none =>
          { (generate_mock_po_id ym pin.storeID db).2 with next_po_line_id := some 1 }
        | some _ => (generate_mock_po_id ym pin.storeID db).2) = db1 ∧
      db1.products = db.products := by
    cases hnl : (generate_mock_po_id ym pin.storeID db).2.next_po_line_id with
    | none => exact ⟨_, rfl, rfl⟩
    | some c => exact ⟨_, rfl, rfl⟩
  obtain ⟨db1, hdb1, hpr1⟩ := hens
  rw [hend] at h
  unfold create_po_after_validation at h
  simp only at h
  rw [hdb1] at h
  have hprod : ∀ l ∈ pin.lines, (db.products l.productID).isSome := by
    cases hloop : create_po_lines (generate_mock_po_id ym pin.storeID db).1
        db1 pin.lines [] 0 with
    | mk r db3 =>
      cases r with
      | error e =>
        rw [hloop] at h
        exact absurd (congrArg Prod.fst h) (by simp)
      | ok payload =>
        intro l hl
        rw [← hpr1]
        exact create_po_lines_products_present _ _ _ _ _ _ _ hloop l hl
  obtain ⟨hd2, db2, heq, _, hsub, hmap, htot, htax, _, _⟩ :=
    create_po_ok ym db pin hsup hst hprod
  rw [hend] at heq
  unfold create_po_after_validation at heq
  simp only at heq
  rw [hdb1] at heq
  rw [heq] at h
  obtain ⟨h1, _⟩ := Prod.mk.injEq .. |>.mp h
  have hhd : hd2 = hd := Except.ok.injEq .. |>.mp h1
  subst hhd
  exact ⟨hsub, hmap, htot, htax⟩

/-- Witness for the amended C2 at the concrete fixture `pinC2`. -/
theorem po_create_totals_witness :
    ∃ hd db',
      create_purchase_order_endpoint "2406" dbBase pinC2 = (.ok hd, db') ∧
      (hd.subtotal = round2 (po_lines_subtotal pinC2.lines) ∧
       hd.lines.map (fun l => l.lineTotal)
         = pinC2.lines.map (fun l => round2 (l.quantityOrdered * l.unitPrice)) ∧
       hd.totalAmount
         = round2 (round2 (po_lines_subtotal pinC2.lines) + pinC2.taxAmount.getD 0
             + pinC2.shippingCost.getD 0 + pinC2.otherCharges.getD 0) ∧
       hd.taxAmount = round2 (pinC2.taxAmount.getD 0)) := by
  have hisok : (create_purchase_order_endpoint "2406" dbBase pinC2).1.isOk = true := rfl
  obtain ⟨hd, hhd⟩ : ∃ hd,
      (create_purchase_order_endpoint "2406" dbBase pinC2).1 = .ok hd := by
    cases hc : (create_purchase_order_endpoint "2406" dbBase pinC2).1 with
    | ok hd => exact ⟨hd, rfl⟩
    | error e => rw [hc] at hisok; cases hisok
  have h : create_purchase_order_endpoint "2406" dbBase pinC2
      = (.ok hd, (create_purchase_order_endpoint "2406" dbBase pinC2).2) := by
    rw [← hhd]
  exact ⟨hd, _, h, po_create_totals "2406" dbBase pinC2 hd _ h⟩

/-! ### C9: the example scenario -/

/-- The rational 25.50 as it appears in request `pinC9`. -/
theorem q25_50_val : q25_50 = 51 / 2 := by
  rw [q25_50, qlit_eq]
  norm_num

/-- PO creation request of the example scenario: store `SH01`, one line for
product 201 with `quantityOrdered 10`, `unitPrice 25.50`, and no
tax/shipping/other charges. -/
def pinC9 : PurchaseOrderHeaderCreate :=
  ⟨1, "SH01", none, none, none, none, none, none,
   [⟨201, 10, q25_50, none, none, none⟩], none, none, none⟩

theorem round2_subtotal_pinC9 : round2 (po_lines_subtotal pinC9.lines) = 255 := by
  have hval : po_lines_subtotal pinC9.lines = 0 + 10 * q25_50 := rfl
  have h := round2_down (po_lines_subtotal pinC9.lines) 25500
    (by rw [hval, q25_50_val]; norm_num) (by rw [hval, q25_50_val]; norm_num)
  rw [h]
  norm_num

theorem round2_255 : round2 (255 : ℚ) = 255 := by
  have h := round2_down (255 : ℚ) 25500 (by norm_num) (by norm_num)
  rw [h]
  norm_num

/-- Claim C9.  From a state whose `SH01` month scope has no sequence entry,
creating the example PO yields id `PO-SH01-<YYMM>001` with subtotal and grand
total 255.00, and an immediately following identical creation yields
`PO-SH01-<YYMM>002`. -/
theorem po_example_scenario (db : DB) (ym : String)
    (hsup : (db.suppliers 1).isSome)
    (hst : (db.stores "SH01").isSome)
    (hprod : (db.products 201).isSome)
    (hfresh : db.po_sequences ("PO_SH01_" ++ ym) = none) :
    ∃ hd1 db1,
      create_purchase_order_endpoint ym db pinC9 = (.ok hd1, db1) ∧
      hd1.purchaseOrderID = "PO-SH01-" ++ ym ++ "001" ∧
      hd1.subtotal = 255 ∧
      hd1.totalAmount = 255 ∧
      ∃ hd2 db2,
        create_purchase_order_endpoint ym db1 pinC9 = (.ok hd2, db2) ∧
        hd2.purchaseOrderID = "PO-SH01-" ++ ym ++ "002" := by
  have hkey : ("PO_" ++ pinC9.storeID ++ "_" ++ ym) = ("PO_SH01_" ++ ym) := by
    show ("PO_" ++ "SH01") ++ "_" ++ ym = "PO_SH01_" ++ ym
    rfl
  obtain ⟨hd1, db1, heq1, hid1, hsub1, _, htot1, _, _, hsu1, hst1, hpr1, hsq1⟩ :=
    create_po_ok ym db pinC9 hsup hst (by intro l hl; fin_cases hl; exact hprod)
  have hfresh' : (db.po_sequences ("PO_" ++ pinC9.storeID ++ "_" ++ ym)).getD 0 = 0 := by
    rw [hkey, hfresh]
    rfl
  refine ⟨hd1, db1, ?_, ?_, ?_, ?_, ?_⟩
  · exact heq1
  · rw [hid1, hfresh']
    show ("PO-" ++ pyUpper "SH01" ++ "-" ++ ym) ++ fmtNat 3 1 = ("PO-SH01-" ++ ym) ++ "001"
    rw [show ("PO-" ++ pyUpper "SH01" ++ "-" : String) = "PO-SH01-" from rfl,
        show fmtNat 3 1 = "001" from rfl]
  · rw [hsub1, round2_subtotal_pinC9]
  · rw [htot1, round2_subtotal_pinC9]
    show round2 (255 + (0:ℚ) + 0 + 0) = 255
    rw [show (255 + (0:ℚ) + 0 + 0) = 255 by norm_num, round2_255]
  · -- second creation, from the state after the first
    obtain ⟨hd2, db2, heq2, hid2, _, _, _, _, _, _, _, _, _⟩ :=
      create_po_ok ym db1 pinC9 (by rw [hsu1]; exact hsup) (by rw [hst1]; exact hst)
        (by intro l hl; fin_cases hl; rw [hpr1]; exact hprod)
    have hseq1 : db1.po_sequences ("PO_" ++ pinC9.storeID ++ "_" ++ ym) = some 1 := by
      rw [hsq1, hfresh']
      simp [setMap]
    refine ⟨hd2, db2, heq2, ?_⟩
    rw [hid2, hseq1]
    show ("PO-" ++ pyUpper "SH01" ++ "-" ++ ym) ++ fmtNat 3 2 = ("PO-SH01-" ++ ym) ++ "002"
    rw [show ("PO-" ++ pyUpper "SH01" ++ "-" : String) = "PO-SH01-" from rfl,
        show fmtNat 3 2 = "002" from rfl]

/-- Witness for C9 at the concrete fixture state. -/
theorem po_example_scenario_witness :
    (dbBase.suppliers 1).isSome = true ∧
    (dbBase.stores "SH01").isSome = true ∧
    (dbBase.products 201).isSome = true ∧
    dbBase.po_sequences ("PO_SH01_" ++ "2406") = none ∧
    (∃ hd1 db1,
      create_purchase_order_endpoint "2406" dbBase pinC9 = (.ok hd1, db1) ∧
      hd1.purchaseOrderID = "PO-SH01-" ++ "2406" ++ "001" ∧
      hd1.subtotal = 255 ∧
      hd1.totalAmount = 255 ∧
      ∃ hd2 db2,
        create_purchase_order_endpoint "2406" db1 pinC9 = (.ok hd2, db2) ∧
        hd2.purchaseOrderID = "PO-SH01-" ++ "2406" ++ "002") :=
  ⟨rfl, rfl, rfl, rfl,
   po_example_scenario dbBase "2406" rfl rfl rfl rfl⟩

/-! ### C3: what failing requests leave behind -/

theorem update_po_lines_frame (poid : String) :
    ∀ ls db acc sub,
      ((update_po_lines poid db ls acc sub).2.purchase_order_headers
          = db.purchase_order_headers) ∧
      ((update_po_lines poid db ls acc sub).2.po_sequences = db.po_sequences) ∧
      ((update_po_lines poid db ls acc sub).2.suppliers = db.suppliers) ∧
      ((update_po_lines poid db ls acc sub).2.stores = db.stores) ∧
      ((update_po_lines poid db ls acc sub).2.products = db.products) ∧
      ((update_po_lines poid db ls acc sub).2.goods_receipt_note_headers
          = db.goods_receipt_note_headers) ∧
      ((update_po_lines poid db ls acc sub).2.goods_receipt_note_lines
          = db.goods_receipt_note_lines) := by
  intro ls
  induction ls with
  | nil => intro db acc sub; exact ⟨rfl, rfl, rfl, rfl, rfl, rfl, rfl⟩
  | cons l rest ih =>
    intro db acc sub
    cases hp : db.products l.productID with
    | none => simp [update_po_lines, hp]
    | some product =>
      simp only [update_po_lines, hp]
      simpa using ih _ _ _

/-- Every failure produced by the GRN line-validation loop carries status
code 400. -/
theorem validate_grn_lines_some_code (db : DB) :
    ∀ ls e, validate_grn_lines db ls = some e → e = ⟨400⟩ := by
  intro ls
  induction ls with
  | nil => intro e h; cases h
  | cons l rest ih =>
    intro e h
    cases hp : db.products l.productID with
    | none =>
      simp only [validate_grn_lines, hp] at h
      exact (Option.some.injEq .. |>.mp h).symm
    | some product =>
      simp only [validate_grn_lines, hp] at h
      by_cases h1 : product.requiresExpiryDate && l.expiryDate.isNone
      · rw [if_pos h1] at h
        exact (Option.some.injEq .. |>.mp h).symm
      · rw [if_neg h1] at h
        by_cases h2 : product.requiresBatchNumber && !pyTruthyStr l.batchNumber
        · rw [if_pos h2] at h
          exact (Option.some.injEq .. |>.mp h).symm
        · rw [if_neg h2] at h
          exact ih e h

/-- The post-validation part of GRN creation fails only with the defensive
id-collision error (500). -/
theorem create_grn_after_validation_error (ym : String) (db : DB)
    (gin : GoodsReceiptNoteHeaderCreate) (e : HTTPException) (db' : DB)
    (h : create_grn_after_validation ym db gin = (.error e, db')) : e = ⟨500⟩ := by
  unfold create_grn_after_validation at h
  simp only at h
  by_cases hc : ((get_next_grn_id_for_store ym gin.storeID db).2.goods_receipt_note_headers
      (get_next_grn_id_for_store ym gin.storeID db).1).isSome
  · rw [if_pos hc] at h
    exact ((Except.error.injEq .. |>.mp (Prod.mk.injEq .. |>.mp h).1)).symm
  · rw [if_neg hc] at h
    exact absurd (congrArg Prod.fst h) (by simp)

/-- Claim C3, amended.  A GRN request that fails with a validation error
(store/supplier/PO reference, conditional line fields — all status 400)
leaves the store untouched, as do failing GRN updates and deletes (404); a
failing PO creation inserts or deletes no header or line record (though the
sequence and line-id counters may already be advanced, see the
counterexample); a failing PO update leaves the header table untouched
(though line records may already be deleted or inserted). -/
theorem failed_requests_effects :
    (∀ ym db gin e db',
        create_grn_endpoint ym db gin = (.error e, db') → e.status_code = 400 →
        db' = db) ∧
    (∀ db gid gin e db',
        update_grn_endpoint db gid gin = (.error e, db') → db' = db) ∧
    (∀ db gid e db',
        delete_grn_endpoint db gid = (.error e, db') → db' = db) ∧
    (∀ ym db pin e db',
        create_purchase_order_endpoint ym db pin = (.error e, db') →
        db'.purchase_order_headers = db.purchase_order_headers ∧
        db'.purchase_order_lines = db.purchase_order_lines ∧
        db'.goods_receipt_note_headers = db.goods_receipt_note_headers ∧
        db'.goods_receipt_note_lines = db.goods_receipt_note_lines) ∧
    (∀ db poid pin e db',
        update_purchase_order_endpoint db poid pin = (.error e, db') →
        db'.purchase_order_headers = db.purchase_order_headers ∧
        db'.goods_receipt_note_headers = db.goods_receipt_note_headers ∧
        db'.goods_receipt_note_lines = db.goods_receipt_note_lines) := by
  refine ⟨?_, ?_, ?_, ?_, ?_⟩
  · -- GRN create
    intro ym db gin e db' h hcode
    unfold create_grn_endpoint at h
    by_cases h1 : (db.stores gin.storeID).isNone
    · rw [if_pos h1] at h
      exact ((Prod.mk.injEq .. |>.mp h).2).symm
    · rw [if_neg h1] at h
      by_cases h2 : grn_supplier_check_fails db gin.supplierID = true
      · rw [if_pos h2] at h
        exact ((Prod.mk.injEq .. |>.mp h).2).symm
      · rw [if_neg h2] at h
        by_cases h3 : grn_po_check_fails db gin.purchaseOrderID = true
        · rw [if_pos h3] at h
          exact ((Prod.mk.injEq .. |>.mp h).2).symm
        · rw [if_neg h3] at h
          cases hv : validate_grn_lines db gin.lines with
          | some e0 =>
            rw [hv] at h
            exact ((Prod.mk.injEq .. |>.mp h).2).symm
          | none =>
            rw [hv] at h
            have h500 := create_grn_after_validation_error ym db gin e db' h
            rw [h500] at hcode
            cases hcode
  · -- GRN update
    intro db gid gin e db' h
    unfold update_grn_endpoint at h
    cases hh : db.goods_receipt_note_headers gid with
    | none =>
      rw [hh] at h
      exact ((Prod.mk.injEq .. |>.mp h).2).symm
    | some cur =>
      rw [hh] at h
      exact absurd (congrArg Prod.fst h) (by simp)
  · -- GRN delete
    intro db gid e db' h
    unfold delete_grn_endpoint at h
    cases hh : db.goods_receipt_note_headers gid with
    | none =>
      rw [hh] at h
      exact ((Prod.mk.injEq .. |>.mp h).2).symm
    | some cur =>
      rw [hh] at h
      exact absurd (congrArg Prod.fst h) (by simp)
  · -- PO create
    intro ym db pin e db' h
    unfold create_purchase_order_endpoint at h
    cases hsup : db.suppliers pin.supplierID with
    | none =>
      rw [hsup] at h
      obtain ⟨_, h2⟩ := Prod.mk.injEq .. |>.mp h
      subst h2
      exact ⟨rfl, rfl, rfl, rfl⟩
    | some sup =>
      rw [hsup] at h
      cases hst : db.stores pin.storeID with
      | none =>
        rw [hst] at h
        obtain ⟨_, h2⟩ := Prod.mk.injEq .. |>.mp h
        subst h2
        exact ⟨rfl, rfl, rfl, rfl⟩
      | some st =>
        rw [hst] at h
        have hens : ∃ db1,
            (match (generate_mock_po_id ym pin.storeID db).2.next_po_line_id with
              | none =>
                { (generate_mock_po_id ym pin.storeID db).2 with
                    next_po_line_id := some 1 }
              | some _ => (generate_mock_po_id ym pin.storeID db).2) = db1 ∧
            db1.purchase_order_headers = db.purchase_order_headers ∧
            db1.purchase_order_lines = db.purchase_order_lines ∧
            db1.goods_receipt_note_headers = db.goods_receipt_note_headers ∧
            db1.goods_receipt_note_lines = db.goods_receipt_note_lines := by
          cases hnl : (generate_mock_po_id ym pin.storeID db).2.next_po_line_id with
          | none => exact ⟨_, rfl, rfl, rfl, rfl, rfl⟩
          | some c => exact ⟨_, rfl, rfl, rfl, rfl, rfl⟩
        obtain ⟨db1, hdb1, hh1, hl1, hg1, hgl1⟩ := hens
        unfold create_po_after_validation at h
        simp only at h
        rw [hdb1] at h
        have hfr := create_po_lines_frame (generate_mock_po_id ym pin.storeID db).1
          pin.lines db1 [] 0
        cases hloop : create_po_lines (generate_mock_po_id ym pin.storeID db).1
            db1 pin.lines [] 0 with
        | mk r db3 =>
          rw [hloop] at h hfr
          cases r with
          | error e0 =>
            obtain ⟨_, h2⟩ := Prod.mk.injEq .. |>.mp h
            subst h2
            exact ⟨hfr.1.trans hh1, hfr.2.1.trans hl1,
                   hfr.2.2.2.2.2.2.1.trans hg1, hfr.2.2.2.2.2.2.2.trans hgl1⟩
          | ok payload =>
            obtain ⟨pl, sub⟩ := payload
            exact absurd (congrArg Prod.fst h) (by simp)
  · -- PO update
    intro db poid pin e db' h
    unfold update_purchase_order_endpoint at h
    cases hh : db.purchase_order_headers poid with
    | none =>
      rw [hh] at h
      obtain ⟨_, h2⟩ := Prod.mk.injEq .. |>.mp h
      subst h2
      exact ⟨rfl, rfl, rfl⟩
    | some existing =>
      rw [hh] at h
      simp only [] at h
      by_cases h1 : pin.supplierID ≠ 0 ∧ (db.suppliers pin.supplierID).isNone = true
      · rw [if_pos h1] at h
        obtain ⟨_, h2⟩ := Prod.mk.injEq .. |>.mp h
        subst h2
        exact ⟨rfl, rfl, rfl⟩
      · rw [if_neg h1] at h
        by_cases h2 : pin.storeID ≠ "" ∧ (db.stores pin.storeID).isNone = true
        · rw [if_pos h2] at h
          obtain ⟨_, h3⟩ := Prod.mk.injEq .. |>.mp h
          subst h3
          exact ⟨rfl, rfl, rfl⟩
        · rw [if_neg h2] at h
          unfold update_po_after_checks at h
          simp only at h
          have hfr := update_po_lines_frame poid pin.lines
            { db with
                purchase_order_lines :=
                  del_po_lines db.purchase_order_lines
                    (existing.lines.map (fun l => l.purchaseOrderLineID)) }
            [] 0
          cases hloop : update_po_lines poid
              { db with
                  purchase_order_lines :=
                    del_po_lines db.purchase_order_lines
                      (existing.lines.map (fun l => l.purchaseOrderLineID)) }
              pin.lines [] 0 with
          | mk r db3 =>
            rw [hloop] at h hfr
            cases r with
            | error e0 =>
              obtain ⟨_, hdb⟩ := Prod.mk.injEq .. |>.mp h
              subst hdb
              exact ⟨hfr.1, hfr.2.2.2.2.2.1, hfr.2.2.2.2.2.2⟩
            | ok payload =>
              obtain ⟨pl, sub⟩ := payload
              exact absurd (congrArg Prod.fst h) (by simp)

/-- PO creation request referencing the nonexistent product 999. -/
def pinBadProduct : PurchaseOrderHeaderCreate :=
  ⟨1, "SH01", none, none, none, none, none, none,
   [⟨999, 1, 1, none, none, none⟩], none, none, none⟩

/-- Counterexample to claim C3 as stated: a PO creation that fails with 404
(unknown product) nevertheless leaves the per-(store, month) sequence counter
advanced — `generate_mock_po_id` writes to the store before line validation
runs. -/
theorem po_failed_create_advances_sequence_cex :
    (create_purchase_order_endpoint "2406" dbBase pinBadProduct).1 = .error ⟨404⟩ ∧
    dbBase.po_sequences ("PO_SH01_" ++ "2406") = none ∧
    (create_purchase_order_endpoint "2406" dbBase pinBadProduct).2.po_sequences
        ("PO_SH01_" ++ "2406") = some 1 := by
  exact ⟨rfl, rfl, rfl⟩

/-- Witness for the amended C3: concrete failing requests, with the
conclusions delivered by the theorem. -/
theorem failed_requests_effects_witness :
    create_purchase_order_endpoint "2406" dbBase pinBadProduct
      = (.error ⟨404⟩, (create_purchase_order_endpoint "2406" dbBase pinBadProduct).2) ∧
    ((create_purchase_order_endpoint "2406" dbBase pinBadProduct).2.purchase_order_headers
        = dbBase.purchase_order_headers ∧
     (create_purchase_order_endpoint "2406" dbBase pinBadProduct).2.purchase_order_lines
        = dbBase.purchase_order_lines ∧
     (create_purchase_order_endpoint "2406" dbBase pinBadProduct).2.goods_receipt_note_headers
        = dbBase.goods_receipt_note_headers ∧
     (create_purchase_order_endpoint "2406" dbBase pinBadProduct).2.goods_receipt_note_lines
        = dbBase.goods_receipt_note_lines) ∧
    update_grn_endpoint dbBase "GRN-MISSING" ginC4 = (.error ⟨404⟩, dbBase) := by
  have h : create_purchase_order_endpoint "2406" dbBase pinBadProduct
      = (.error ⟨404⟩, (create_purchase_order_endpoint "2406" dbBase pinBadProduct).2) := rfl
  have h2 : update_grn_endpoint dbBase "GRN-MISSING" ginC4 = (.error ⟨404⟩, dbBase) := rfl
  refine ⟨h, failed_requests_effects.2.2.2.1 "2406" dbBase pinBadProduct ⟨404⟩ _ h, ?_⟩
  have := failed_requests_effects.2.1 dbBase "GRN-MISSING" ginC4 ⟨404⟩ dbBase h2
  exact h2

/-! ### C7: conditional batch/expiry requirements -/

/-- A line that violates its product's conditional requirements: the product
exists and requires a batch number (resp. expiry date) that the line does not
(truthily) carry. -/
def grn_line_violation (db : DB) (l : GoodsReceiptNoteLineCreate) : Prop :=
  ∃ p, db.products l.productID = some p ∧
    ((p.requiresBatchNumber = true ∧ pyTruthyStr l.batchNumber = false) ∨
     (p.requiresExpiryDate = true ∧ l.expiryDate = none))

/-- A line that passes the conditional checks of `create_grn_endpoint`. -/
def grn_line_pass (db : DB) (l : GoodsReceiptNoteLineCreate) : Prop :=
  ∃ p, db.products l.productID = some p ∧
    (p.requiresExpiryDate = true → l.expiryDate.isSome = true) ∧
    (p.requiresBatchNumber = true → pyTruthyStr l.batchNumber = true)

theorem validate_grn_lines_of_violation (db : DB) :
    ∀ ls, (∃ l ∈ ls, grn_line_violation db l) →
      ∃ e, validate_grn_lines db ls = some e := by
  intro ls
  induction ls with
  | nil => intro ⟨l, hl, _⟩; cases hl
  | cons l0 rest ih =>
    intro ⟨l, hl, hviol⟩
    cases hp : db.products l0.productID with
    | none => exact ⟨⟨400⟩, by simp [validate_grn_lines, hp]⟩
    | some p0 =>
      by_cases h1 : p0.requiresExpiryDate && l0.expiryDate.isNone
      · exact ⟨⟨400⟩, by simp only [validate_grn_lines, hp]; rw [if_pos h1]⟩
      · by_cases h2 : p0.requiresBatchNumber && !pyTruthyStr l0.batchNumber
        · exact ⟨⟨400⟩, by
            simp only [validate_grn_lines, hp]
            rw [if_neg h1, if_pos h2]⟩
        · rcases List.mem_cons.mp hl with h0 | hmem
          · subst h0
            obtain ⟨p, hp', hv⟩ := hviol
            rw [hp] at hp'
            obtain rfl : p0 = p := Option.some.injEq .. |>.mp hp'
            rcases hv with ⟨hb, hbf⟩ | ⟨he, hef⟩
            · exact absurd (by rw [hb, hbf]; rfl) h2
            · exact absurd (by rw [he, hef]; rfl) h1
          · obtain ⟨e, he⟩ := ih ⟨l, hmem, hviol⟩
            exact ⟨e, by
              simp only [validate_grn_lines, hp]
              rw [if_neg h1, if_neg h2]
              exact he⟩

theorem validate_grn_lines_none_of_pass (db : DB) :
    ∀ ls, (∀ l ∈ ls, grn_line_pass db l) → validate_grn_lines db ls = none := by
  intro ls
  induction ls with
  | nil => intro _; rfl
  | cons l0 rest ih =>
    intro hall
    obtain ⟨p, hp, hexp, hbat⟩ := hall l0 (List.mem_cons_self l0 rest)
    have h1 : (p.requiresExpiryDate && l0.expiryDate.isNone) = false := by
      cases hre : p.requiresExpiryDate with
      | false => rfl
      | true =>
        have := hexp hre
        simp [Option.isNone_iff_eq_none]
        simp only [Option.isSome_iff_exists] at this
        obtain ⟨v, hv⟩ := this
        simp [hv]
    have h2 : (p.requiresBatchNumber && !pyTruthyStr l0.batchNumber) = false := by
      cases hrb : p.requiresBatchNumber with
      | false => rfl
      | true =>
        have := hbat hrb
        simp [this]
    simp only [validate_grn_lines, hp, h1, h2]
    simp only [Bool.false_eq_true, if_false]
    exact ih (fun l hl => hall l (List.mem_cons_of_mem l0 hl))

/-- Length of the list produced by the GRN line-creation loop. -/
theorem create_grn_lines_length (hdrID : String) :
    ∀ ls db acc, (create_grn_lines hdrID db ls acc).1.length = acc.length + ls.length := by
  intro ls
  induction ls with
  | nil => intro db acc; simp [create_grn_lines]
  | cons l rest ih =>
    intro db acc
    show (create_grn_lines hdrID _ rest (acc ++ [_])).1.length = _
    rw [ih]
    simp
    omega

/-- Success characterisation of GRN creation: all validations passing and no
id collision imply a 201 result whose header carries one stored line per
submitted line. -/
theorem grn_create_ok (ym : String) (db : DB) (gin : GoodsReceiptNoteHeaderCreate)
    (hst : (db.stores gin.storeID).isSome = true)
    (hsupOK : grn_supplier_check_fails db gin.supplierID = false)
    (hpoOK : grn_po_check_fails db gin.purchaseOrderID = false)
    (hval : validate_grn_lines db gin.lines = none)
    (hcol : db.goods_receipt_note_headers
        (get_next_grn_id_for_store ym gin.storeID db).1 = none) :
    ∃ hd db', create_grn_endpoint ym db gin = (.ok hd, db') ∧
      hd.grnID = (get_next_grn_id_for_store ym gin.storeID db).1 ∧
      hd.lines.length = gin.lines.length ∧
      db'.goods_receipt_note_headers hd.grnID = some hd := by
  have hstne : ¬ ((db.stores gin.storeID).isNone = true) := by
    cases hss : db.stores gin.storeID with
    | none => rw [hss] at hst; cases hst
    | some _ => simp [hss]
  unfold create_grn_endpoint
  rw [if_neg hstne, if_neg (by rw [hsupOK]; exact Bool.false_ne_true),
      if_neg (by rw [hpoOK]; exact Bool.false_ne_true), hval]
  unfold create_grn_after_validation
  simp only
  have hcol' : ¬ (((get_next_grn_id_for_store ym gin.storeID db).2.goods_receipt_note_headers
      (get_next_grn_id_for_store ym gin.storeID db).1).isSome = true) := by
    have : (get_next_grn_id_for_store ym gin.storeID db).2.goods_receipt_note_headers
        = db.goods_receipt_note_headers := rfl
    rw [this, hcol]
    simp
  rw [if_neg hcol']
  refine ⟨_, _, rfl, rfl, ?_, ?_⟩
  · show (create_grn_lines _ _ gin.lines []).1.length = _
    rw [create_grn_lines_length]
    simp
  · simp [setMap]

/-- PO creation request whose single line references product 202
(`requiresBatchNumber=True`); the PO line model cannot even carry a batch
number. -/
def pinBatchNoBatch : PurchaseOrderHeaderCreate :=
  ⟨1, "SH01", none, none, none, none, none, none,
   [⟨202, 1, 1, none, none, none⟩], none, none, none⟩

/-- Counterexample to claim C7 as stated over both document types: a PO
creation whose line references a product flagged `requiresBatchNumber=True`,
with no batch number supplied anywhere, succeeds — the PO module performs no
batch/expiry validation at all. -/
theorem po_ignores_batch_flag_cex :
    dbBase.products 202 = some product202 ∧
    product202.requiresBatchNumber = true ∧
    pinBatchNoBatch.lines.map (fun l => l.productID) = [202] ∧
    (create_purchase_order_endpoint "2406" dbBase pinBatchNoBatch).1.isOk = true :=
  ⟨rfl, rfl, rfl, rfl⟩

/-- Amended claim C7: GRN creation rejects (status 400, store unchanged) any
request containing a line whose product requires a batch number or expiry
date that the line does not carry, and succeeds on the same request once the
conditional fields are supplied (other validations passing and no id
collision); PO creation, by contrast, performs no such check — it succeeds
whenever supplier, store and products resolve, regardless of the flags. -/
theorem grn_batch_expiry_validation :
    (∀ ym db gin, (∃ l ∈ gin.lines, grn_line_violation db l) →
        create_grn_endpoint ym db gin = (.error ⟨400⟩, db)) ∧
    (∀ ym db gin, (db.stores gin.storeID).isSome = true →
        grn_supplier_check_fails db gin.supplierID = false →
        grn_po_check_fails db gin.purchaseOrderID = false →
        (∀ l ∈ gin.lines, grn_line_pass db l) →
        db.goods_receipt_note_headers
            (get_next_grn_id_for_store ym gin.storeID db).1 = none →
        (create_grn_endpoint ym db gin).1.isOk = true) ∧
    (∀ ym db pin, (db.suppliers pin.supplierID).isSome = true →
        (db.stores pin.storeID).isSome = true →
        (∀ l ∈ pin.lines, (db.products l.productID).isSome = true) →
        (create_purchase_order_endpoint ym db pin).1.isOk = true) := by
  refine ⟨?_, ?_, ?_⟩
  · intro ym db gin hviol
    unfold create_grn_endpoint
    by_cases h1 : (db.stores gin.storeID).isNone = true
    · rw [if_pos h1]
    · rw [if_neg h1]
      by_cases h2 : grn_supplier_check_fails db gin.supplierID = true
      · rw [if_pos h2]
      · rw [if_neg h2]
        by_cases h3 : grn_po_check_fails db gin.purchaseOrderID = true
        · rw [if_pos h3]
        · rw [if_neg h3]
          obtain ⟨e, he⟩ := validate_grn_lines_of_violation db gin.lines hviol
          rw [he, validate_grn_lines_some_code db gin.lines e he]
  · intro ym db gin hst hsup hpo hpass hcol
    obtain ⟨hd, db', heq, _, _, _⟩ :=
      grn_create_ok ym db gin hst hsup hpo
        (validate_grn_lines_none_of_pass db gin.lines hpass) hcol
    rw [heq]
    rfl
  · intro ym db pin hsup hst hprod
    obtain ⟨hd, db', heq, _⟩ := create_po_ok ym db pin hsup hst hprod
    rw [heq]
    rfl

/-- GRN creation request with a product-202 line and no batch number. -/
def ginMissingBatch : GoodsReceiptNoteHeaderCreate :=
  ⟨none, none, "SH01", none, none, none, none,
   [⟨202, none, none, 1, none, none, none, none⟩]⟩

/-- The same GRN creation request with the batch number supplied. -/
def ginWithBatch : GoodsReceiptNoteHeaderCreate :=
  ⟨none, none, "SH01", none, none, none, none,
   [⟨202, none, none, 1, none, some "B1", none, none⟩]⟩

/-- Witness for the amended C7: the concrete missing-batch request is
rejected with 400 and no state change; the identical request with the batch
number succeeds; the PO request referencing the same flagged product
succeeds. -/
theorem grn_batch_expiry_validation_witness :
    (∃ l ∈ ginMissingBatch.lines, grn_line_violation dbBase l) ∧
    create_grn_endpoint "2406" dbBase ginMissingBatch = (.error ⟨400⟩, dbBase) ∧
    (create_grn_endpoint "2406" dbBase ginWithBatch).1.isOk = true ∧
    (create_purchase_order_endpoint "2406" dbBase pinBatchNoBatch).1.isOk = true := by
  have hviol : ∃ l ∈ ginMissingBatch.lines, grn_line_violation dbBase l := by
    refine ⟨⟨202, none, none, 1, none, none, none, none⟩, by decide, ?_⟩
    exact ⟨product202, rfl, Or.inl ⟨rfl, rfl⟩⟩
  refine ⟨hviol, grn_batch_expiry_validation.1 "2406" dbBase ginMissingBatch hviol, ?_, ?_⟩
  · refine grn_batch_expiry_validation.2.1 "2406" dbBase ginWithBatch rfl rfl rfl ?_ rfl
    intro l hl
    fin_cases hl
    exact ⟨product202, rfl, by decide, by decide⟩
  · exact grn_batch_expiry_validation.2.2 "2406" dbBase pinBatchNoBatch rfl rfl
      (by intro l hl; fin_cases hl; rfl)

/-! ### C8: empty line lists -/

/-- GRN creation request with an empty line list. -/
def ginEmpty : GoodsReceiptNoteHeaderCreate :=
  ⟨none, none, "SH01", none, none, none, none, []⟩

/-- Counterexample to claim C8 as stated: a GRN creation request with an
empty line list passes request validation (the GRN `lines` field has no
`min_length`), succeeds, and persists a header with zero lines. -/
theorem grn_empty_lines_accepted_cex :
    ∃ hd db',
      create_grn_request "2406" dbBase ginEmpty = (.ok hd, db') ∧
      hd.lines = [] ∧
      db'.goods_receipt_note_headers hd.grnID = some hd := by
  exact ⟨_, _, rfl, rfl, rfl⟩

/-- PO creation request with an empty line list (otherwise well-formed). -/
def pinEmpty : PurchaseOrderHeaderCreate :=
  ⟨1, "SH01", none, none, none, none, none, none, [], none, none, none⟩

/-- Amended claim C8: PO creation rejects an empty line list at the request
layer (Pydantic `min_length=1`, a 422 response, nothing persisted), so every
persisted PO has at least one line at creation; GRN creation, whose `lines`
field carries no such constraint, accepts an empty list and persists a
header with no lines. -/
theorem empty_lines_policy :
    (∀ ym db pin, pin.lines = [] →
        create_purchase_order_request ym db pin = (.error ⟨422⟩, db)) ∧
    (∀ ym db gin, gin.lines = [] →
        (db.stores gin.storeID).isSome = true →
        grn_supplier_check_fails db gin.supplierID = false →
        grn_po_check_fails db gin.purchaseOrderID = false →
        db.goods_receipt_note_headers
            (get_next_grn_id_for_store ym gin.storeID db).1 = none →
        ∃ hd db', create_grn_request ym db gin = (.ok hd, db') ∧
          hd.lines = [] ∧
          db'.goods_receipt_note_headers hd.grnID = some hd) := by
  constructor
  · intro ym db pin hlines
    unfold create_purchase_order_request
    rw [if_neg]
    intro hval
    exact hval.1 hlines
  · intro ym db gin hlines hst hsup hpo hcol
    have hvalid : GRNHeaderCreateRequestValid gin := by
      intro l hl
      rw [hlines] at hl
      cases hl
    have hval : validate_grn_lines db gin.lines = none := by
      rw [hlines]
      rfl
    obtain ⟨hd, db', heq, _, hlen, hstored⟩ :=
      grn_create_ok ym db gin hst hsup hpo hval hcol
    refine ⟨hd, db', ?_, ?_, hstored⟩
    · unfold create_grn_request
      rw [if_pos hvalid]
      exact heq
    · rw [hlines] at hlen
      exact List.length_eq_zero.mp hlen

/-- Witness for the amended C8 at the concrete fixtures. -/
theorem empty_lines_policy_witness :
    pinEmpty.lines = [] ∧
    create_purchase_order_request "2406" dbBase pinEmpty = (.error ⟨422⟩, dbBase) ∧
    ginEmpty.lines = [] ∧
    (∃ hd db', create_grn_request "2406" dbBase ginEmpty = (.ok hd, db') ∧
      hd.lines = [] ∧
      db'.goods_receipt_note_headers hd.grnID = some hd) :=
  ⟨rfl, empty_lines_policy.1 "2406" dbBase pinEmpty rfl, rfl,
   empty_lines_policy.2 "2406" dbBase ginEmpty rfl rfl rfl rfl rfl⟩

/-! ### C10: what a successful PO update does to the line table -/

theorem del_po_lines_apply :
    ∀ (ids : List Nat) (t : Nat → Option PurchaseOrderLine) (i : Nat),
      del_po_lines t ids i = if i ∈ ids then none else t i := by
  intro ids
  induction ids with
  | nil => intro t i; simp [del_po_lines]
  | cons j rest ih =>
    intro t i
    show del_po_lines (delMap t j) rest i = _
    rw [ih]
    by_cases hj : i = j
    · subst hj
      by_cases hr : i ∈ rest <;> simp [hr, delMap]
    · by_cases hr : i ∈ rest <;> simp [hr, delMap, hj]

theorem update_po_lines_ok_payload (poid : String) :
    ∀ ls db acc sub res s db' c,
      db.next_po_line_id = some c →
      update_po_lines poid db ls acc sub = (.ok (res, s), db') →
      db'.next_po_line_id = some (c + ls.length) ∧
      (∀ k, k < c → db'.purchase_order_lines k = db.purchase_order_lines k) ∧
      (∀ l' ∈ res, l' ∈ acc ∨
        (c ≤ l'.purchaseOrderLineID ∧ l'.quantityReceived = 0 ∧
         db'.purchase_order_lines l'.purchaseOrderLineID = some l')) ∧
      res.map (fun l => l.productID)
        = acc.map (fun l => l.productID) ++ ls.map (fun l => l.productID) := by
  intro ls
  induction ls with
  | nil =>
    intro db acc sub res s db' c hc h
    obtain ⟨h1, h2⟩ := Prod.mk.injEq .. |>.mp h
    obtain ⟨h3, _⟩ := Prod.mk.injEq .. |>.mp (Except.ok.injEq .. |>.mp h1)
    subst h2; subst h3
    refine ⟨by simpa using hc, fun k _ => rfl, fun l' hl' => Or.inl hl', by simp⟩
  | cons l rest ih =>
    intro db acc sub res s db' c hc h
    cases hp : db.products l.productID with
    | none =>
      simp only [update_po_lines, hp] at h
      exact absurd (congrArg Prod.fst h) (by simp)
    | some product =>
      simp only [update_po_lines, hp, hc, Option.getD_some] at h
      obtain ⟨hnext, hframe, hmem, hmap⟩ := ih _ _ _ _ _ _ (c + 1) rfl h
      refine ⟨?_, ?_, ?_, ?_⟩
      · rw [hnext, List.length_cons]
        congr 1
        omega
      · intro k hk
        rw [hframe k (by omega)]
        show setMap _ c _ k = _
        simp only [setMap]
        rw [if_neg (by omega)]
      · intro l' hl'
        rcases hmem l' hl' with hacc | ⟨hge, hqr, hstore⟩
        · rcases List.mem_append.mp hacc with ha | hsingle
          · exact Or.inl ha
          · obtain rfl := List.mem_singleton.mp hsingle
            refine Or.inr ⟨le_refl c, rfl, ?_⟩
            rw [hframe c (by omega)]
            show setMap _ c _ c = _
            simp [setMap]
        · exact Or.inr ⟨by omega, hqr, hstore⟩
      · rw [hmap]
        simp

/-- Claim C10.  A successful PO update — whatever the order's status —
removes every previous line record of the order from the line table, stores
each submitted line under a fresh id at or above the old counter value
(so, given that all existing ids are below the counter, ids are never
reused), advances the counter by the number of submitted lines, and resets
every stored line's `quantityReceived` to 0. -/
theorem po_update_reallocates_lines (db : DB) (poid : String)
    (pin : PurchaseOrderHeaderCreate) (hd0 : PurchaseOrderHeader) (c : Nat)
    (hd : PurchaseOrderHeader) (db' : DB)
    (hhd : db.purchase_order_headers poid = some hd0)
    (hc : db.next_po_line_id = some c)
    (hold : ∀ l ∈ hd0.lines, l.purchaseOrderLineID < c)
    (h : update_purchase_order_endpoint db poid pin = (.ok hd, db')) :
    (∀ l ∈ hd0.lines, db'.purchase_order_lines l.purchaseOrderLineID = none) ∧
    (∀ l' ∈ hd.lines, c ≤ l'.purchaseOrderLineID ∧ l'.quantityReceived = 0 ∧
        db'.purchase_order_lines l'.purchaseOrderLineID = some l') ∧
    db'.next_po_line_id = some (c + pin.lines.length) ∧
    hd.lines.map (fun l => l.productID) = pin.lines.map (fun l => l.productID) := by
  unfold update_purchase_order_endpoint at h
  rw [hhd] at h
  simp only [] at h
  by_cases h1 : pin.supplierID ≠ 0 ∧ (db.suppliers pin.supplierID).isNone = true
  · rw [if_pos h1] at h
    exact absurd (congrArg Prod.fst h) (by simp)
  · rw [if_neg h1] at h
    by_cases h2 : pin.storeID ≠ "" ∧ (db.stores pin.storeID).isNone = true
    · rw [if_pos h2] at h
      exact absurd (congrArg Prod.fst h) (by simp)
    · rw [if_neg h2] at h
      unfold update_po_after_checks at h
      simp only [] at h
      cases hloop : update_po_lines poid
          { db with
              purchase_order_lines :=
                del_po_lines db.purchase_order_lines
                  (hd0.lines.map (fun l => l.purchaseOrderLineID)) }
          pin.lines [] 0 with
      | mk r db2 =>
        rw [hloop] at h
        cases r with
        | error e0 => exact absurd (congrArg Prod.fst h) (by simp)
        | ok payload =>
          obtain ⟨pl, subv⟩ := payload
          obtain ⟨h1', h2'⟩ := Prod.mk.injEq .. |>.mp h
          have hhd' := Except.ok.injEq .. |>.mp h1'
          subst h2'
          subst hhd'
          obtain ⟨hnext, hframe, hmem, hmap⟩ :=
            update_po_lines_ok_payload poid pin.lines
              { db with
                  purchase_order_lines :=
                    del_po_lines db.purchase_order_lines
                      (hd0.lines.map (fun l => l.purchaseOrderLineID)) }
              [] 0 pl subv db2 c hc hloop
          refine ⟨?_, ?_, ?_, ?_⟩
          · intro l hl
            show db2.purchase_order_lines l.purchaseOrderLineID = none
            rw [hframe l.purchaseOrderLineID (hold l hl)]
            show del_po_lines db.purchase_order_lines
                (hd0.lines.map (fun l => l.purchaseOrderLineID)) l.purchaseOrderLineID = none
            rw [del_po_lines_apply]
            rw [if_pos (List.mem_map_of_mem _ hl)]
          · intro l' hl'
            have hl'' : l' ∈ pl := hl'
            rcases hmem l' hl'' with hemp | ⟨hge, hqr, hstore⟩
            · cases hemp
            · exact ⟨hge, hqr, hstore⟩
          · exact hnext
          · have : (pl.map (fun l => l.productID))
                = pin.lines.map (fun l => l.productID) := by
              rw [hmap]
              simp
            exact this

/-- Witness for C10 at the concrete fixture: updating the stored
`FullyReceived` order (old line id 1, counter at 10, `quantityReceived`
already 3) with `pinC4` succeeds, and the theorem's conclusions hold. -/
theorem po_update_reallocates_lines_witness :
    dbBase.purchase_order_headers "PO-SH01-2405001" = some poFR ∧
    dbBase.next_po_line_id = some 10 ∧
    (∀ l ∈ poFR.lines, l.purchaseOrderLineID < 10) ∧
    (∃ hd db',
      update_purchase_order_endpoint dbBase "PO-SH01-2405001" pinC4 = (.ok hd, db') ∧
      (∀ l ∈ poFR.lines, db'.purchase_order_lines l.purchaseOrderLineID = none) ∧
      (∀ l' ∈ hd.lines, 10 ≤ l'.purchaseOrderLineID ∧ l'.quantityReceived = 0 ∧
          db'.purchase_order_lines l'.purchaseOrderLineID = some l') ∧
      db'.next_po_line_id = some (10 + pinC4.lines.length) ∧
      hd.lines.map (fun l => l.productID) = pinC4.lines.map (fun l => l.productID)) := by
  have hisok : (update_purchase_order_endpoint dbBase "PO-SH01-2405001" pinC4).1.isOk
      = true := rfl
  obtain ⟨hd, hhd⟩ : ∃ hd,
      (update_purchase_order_endpoint dbBase "PO-SH01-2405001" pinC4).1 = .ok hd := by
    cases hcase : (update_purchase_order_endpoint dbBase "PO-SH01-2405001" pinC4).1 with
    | ok hd => exact ⟨hd, rfl⟩
    | error e => rw [hcase] at hisok; cases hisok
  have h : update_purchase_order_endpoint dbBase "PO-SH01-2405001" pinC4
      = (.ok hd, (update_purchase_order_endpoint dbBase "PO-SH01-2405001" pinC4).2) := by
    rw [← hhd]
  have hold : ∀ l ∈ poFR.lines, l.purchaseOrderLineID < 10 := by
    intro l hl
    fin_cases hl
    show (1 : Nat) < 10
    omega
  exact ⟨rfl, rfl, hold,
    hd, _, h,
    po_update_reallocates_lines dbBase "PO-SH01-2405001" pinC4 poFR 10 hd _ rfl rfl hold h⟩
